import Mathlib

/-!
Session coordinator of `server.js`.

A shallow embedding of the room registry and of the countdown engine of
`src/server.js`, followed by the properties established about them.

Modelling conventions.

* `rooms` is a plain JavaScript object literal.  Its own properties are kept
  as an association list in insertion order.  A property read `rooms[k]` or a
  test `k in rooms` also sees the members that every object literal inherits
  from `Object.prototype`; those are listed in `objectPrototypeKeys` and show
  up as `Slot.builtin`.  The built-in members are taken as the runtime ships
  them: they carry no `roomData` and no `roomSettings` property.
* A handler returns `Except JSError Result`: the registry after the handler
  and the effects it performed in order, or the exception it raised.  Every
  `throw` site of the modelled handlers is reached before the handler has
  written anything, so an exception leaves the registry as it was.
* Times are integers (milliseconds, the values of `Date.now()`), durations are
  integers, and `Math.floor (x / 1000)` is integer floor division.
* The `Math.random().toString(36)` renderings consumed by one call of
  `generateUniqueRoomId` are passed in as a list; when the list is used up
  while every candidate collided, the loop has not returned.
-/

deriving instance DecidableEq for Except

namespace Skribbl

/-! ## Data model -/

/-- An element of `roomData`: `{ socketId, username, isActivePlayer }`. -/
structure Participant where
  socketId : String
  username : String
  isActivePlayer : Bool
deriving DecidableEq, Repr

/-- A primitive JavaScript value. -/
inductive JSPrim where
  | undefined
  | null
  | bool (b : Bool)
  | num (n : Int)
  | str (s : String)
deriving DecidableEq, Repr

/-- A client supplied value: a primitive or a flat object of primitives. -/
inductive JSVal where
  | prim (p : JSPrim)
  | obj (fields : List (String × JSPrim))
deriving DecidableEq, Repr

/-- A room object `{ roomData, roomSettings }`. -/
structure Room where
  roomData : List Participant
  roomSettings : JSVal
deriving DecidableEq, Repr

/-- The own properties of the `rooms` object, in insertion order. -/
abbrev Rooms := List (String × Room)

/-- The property names an object literal inherits from `Object.prototype`. -/
def objectPrototypeKeys : List String :=
  ["constructor", "__defineGetter__", "__defineSetter__", "hasOwnProperty",
   "__lookupGetter__", "__lookupSetter__", "isPrototypeOf", "propertyIsEnumerable",
   "toString", "valueOf", "__proto__", "toLocaleString"]

/-- The value of the expression `rooms[roomId]`. -/
inductive Slot where
  | undefined
  | room (r : Room)
  | builtin
deriving DecidableEq, Repr

/-- The live room stored under `roomId`, if any (own property). -/
def liveRoom (rooms : Rooms) (roomId : String) : Option Room :=
  rooms.lookup roomId

/-- Property read `rooms[roomId]`: own property first, then the prototype. -/
def getProp (rooms : Rooms) (roomId : String) : Slot :=
  match liveRoom rooms roomId with
  | some r => Slot.room r
  | none => if roomId ∈ objectPrototypeKeys then Slot.builtin else Slot.undefined

/-- The test `roomId in rooms`. -/
def hasProp (rooms : Rooms) (roomId : String) : Bool :=
  (liveRoom rooms roomId).isSome || decide (roomId ∈ objectPrototypeKeys)

/-- Truthiness of `rooms[roomId]`: objects and functions are truthy. -/
def Slot.truthy : Slot → Bool
  | Slot.undefined => false
  | Slot.room _ => true
  | Slot.builtin => true

/-- In-place update of the room object stored under `roomId`. -/
def modifyRoom (f : Room → Room) (roomId : String) (rooms : Rooms) : Rooms :=
  rooms.map (fun e => if e.1 = roomId then (e.1, f e.2) else e)

/-- The statement `delete rooms[roomId]`. -/
def deleteRoom (roomId : String) (rooms : Rooms) : Rooms :=
  rooms.filter (fun e => !decide (e.1 = roomId))

/-- The assignment `rooms[roomId] = room`. -/
def assignRoom (roomId : String) (room : Room) (rooms : Rooms) : Rooms :=
  if (liveRoom rooms roomId).isSome then modifyRoom (fun _ => room) roomId rooms
  else rooms ++ [(roomId, room)]

/-! ## Effects -/

/-- Where an outbound event is addressed. -/
inductive Target where
  | ack
  | socket (id : String)
  | room (name : String)
  | everyone
  | others (id : String)
deriving DecidableEq, Repr

/-- Payload of an outbound event. -/
inductive Payload where
  | none
  | bool (b : Bool)
  | num (n : Int)
  | str (s : String)
  | roomInfo (socketId roomId : String) (roomData : Option (List Participant))
  | slot (v : Slot)
  | roomStatus (roomExists : Bool) (room : Slot)
  | settings (roomSettings : JSVal)
  | users (newRoomData : Option (List Participant)) (prevRoomId : String)
deriving DecidableEq, Repr

/-- An observable action of a handler. -/
inductive Effect where
  | emit (target : Target) (event : String) (payload : Payload)
  | join (socketId roomName : String)
deriving DecidableEq, Repr

/-- An exception raised by the runtime. -/
inductive JSError where
  | typeError (what : String)
deriving DecidableEq, Repr

/-- Registry and effects after a handler ran to completion. -/
structure Result where
  rooms : Rooms
  out : List Effect
deriving DecidableEq, Repr

/-! ## Room identifiers -/

/-- The call `s.substring(7)` on an ASCII rendering. -/
def substring7 (s : String) : String :=
  String.mk (s.data.drop 7)

/-- The `do ... while (rooms[roomId])` loop of `generateUniqueRoomId`, run on
the successive `Math.random().toString(36)` renderings. -/
def generateUniqueRoomId (rooms : Rooms) : List String → Option String
  | [] => none
  | rendering :: more =>
    let roomId := substring7 rendering
    if (getProp rooms roomId).truthy then generateUniqueRoomId rooms more
    else some roomId

/-! ## Registry handlers -/

/-- The settings a room is created with. -/
def defaultSettings : JSVal :=
  JSVal.obj [("players", JSPrim.num 6), ("rounds", JSPrim.num 4),
    ("drawTime", JSPrim.num 60), ("hints", JSPrim.num 1),
    ("isStarted", JSPrim.bool false)]

/-- Handler of `createRoom`; `none` while the identifier loop has not returned. -/
def createRoom (rooms : Rooms) (socketId username : String)
    (renderings : List String) : Option (String × Result) :=
  match generateUniqueRoomId rooms renderings with
  | none => none
  | some roomId =>
    let roomData := [Participant.mk socketId username true]
    let rooms1 := assignRoom roomId ⟨roomData, defaultSettings⟩ rooms
    some (roomId,
      ⟨rooms1,
       [Effect.join socketId roomId,
        Effect.emit Target.ack "" (Payload.roomInfo socketId roomId (some roomData)),
        Effect.emit (Target.socket socketId) "roomCreated"
          (Payload.roomInfo socketId roomId (some roomData))]⟩)

/-- Handler of `joinRoom`. -/
def joinRoom (rooms : Rooms) (socketId roomId username : String) :
    Except JSError Result :=
  if hasProp rooms roomId then
    match getProp rooms roomId with
    | Slot.room r =>
      let roomData := r.roomData ++ [Participant.mk socketId username false]
      let rooms1 := modifyRoom (fun x => { x with roomData := roomData }) roomId rooms
      Except.ok ⟨rooms1,
        [Effect.join socketId roomId,
         Effect.emit Target.ack "" (Payload.roomInfo socketId roomId (some roomData)),
         Effect.emit (Target.room roomId) "userJoined"
           (Payload.roomInfo socketId roomId (some roomData))]⟩
    | Slot.builtin =>
      Except.ok ⟨rooms,
        [Effect.join socketId roomId,
         Effect.emit Target.ack "" (Payload.roomInfo socketId roomId none),
         Effect.emit (Target.room roomId) "userJoined"
           (Payload.roomInfo socketId roomId none)]⟩
    | Slot.undefined => Except.error (JSError.typeError "rooms[roomId].roomData")
  else
    Except.ok ⟨rooms, [Effect.emit (Target.socket socketId) "roomNotFound" Payload.none]⟩

/-- Handler of `getUsers`. -/
def getUsers (rooms : Rooms) (socketId roomId : String) : Except JSError Result :=
  Except.ok ⟨rooms,
    [Effect.emit (Target.socket socketId) "usersList" (Payload.slot (getProp rooms roomId))]⟩

/-- The assignment `o[key] = v` on a flat object. -/
def setField (key : String) (v : JSPrim) : List (String × JSPrim) → List (String × JSPrim)
  | [] => [(key, v)]
  | (k, w) :: rest => if k = key then (k, v) :: rest else (k, w) :: setField key v rest

/-- The assignment `settings.isStarted = true`: it throws on `undefined` and
`null`, is dropped on another primitive, and writes the field of an object. -/
def markStarted : JSVal → Except JSError JSVal
  | JSVal.prim JSPrim.undefined => Except.error (JSError.typeError "undefined.isStarted")
  | JSVal.prim JSPrim.null => Except.error (JSError.typeError "null.isStarted")
  | JSVal.prim p => Except.ok (JSVal.prim p)
  | JSVal.obj fields => Except.ok (JSVal.obj (setField "isStarted" (JSPrim.bool true) fields))

/-- Handler of `startGame`. -/
def startGame (rooms : Rooms) (roomId : String) : Except JSError Result :=
  match getProp rooms roomId with
  | Slot.undefined => Except.error (JSError.typeError "rooms[roomId].roomSettings")
  | Slot.builtin => Except.error (JSError.typeError "undefined.isStarted")
  | Slot.room r =>
    match markStarted r.roomSettings with
    | Except.error e => Except.error e
    | Except.ok settings =>
      Except.ok ⟨modifyRoom (fun x => { x with roomSettings := settings }) roomId rooms,
        [Effect.emit (Target.room roomId) "changeStateToStarted" (Payload.bool true)]⟩

/-- The function `checkRoom`: `rooms[roomId]?.roomData.length ? true : false`. -/
def checkRoom (rooms : Rooms) (roomId : String) : Except JSError Bool :=
  match getProp rooms roomId with
  | Slot.undefined => Except.ok false
  | Slot.builtin => Except.error (JSError.typeError "undefined.length")
  | Slot.room r => Except.ok (decide (r.roomData.length ≠ 0))

/-- Handler of `checkRoom`; its `catch` block only logs. -/
def checkRoomHandler (rooms : Rooms) (socketId roomId : String) : Except JSError Result :=
  match checkRoom rooms roomId with
  | Except.ok roomExists =>
    Except.ok ⟨rooms,
      [Effect.emit (Target.room socketId) "check-room-status"
        (Payload.roomStatus roomExists (getProp rooms roomId))]⟩
  | Except.error _ => Except.ok ⟨rooms, []⟩

/-- Handler of `setRoomSettings`.  On an inherited key the write lands on a
built-in object, outside the registry. -/
def setRoomSettings (rooms : Rooms) (roomSettings : JSVal) (roomId : String) :
    Except JSError Result :=
  match getProp rooms roomId with
  | Slot.undefined => Except.error (JSError.typeError "rooms[roomId].roomSettings")
  | Slot.builtin =>
    Except.ok ⟨rooms,
      [Effect.emit (Target.room roomId) "broadcastRoomSettings" (Payload.settings roomSettings)]⟩
  | Slot.room _ =>
    Except.ok ⟨modifyRoom (fun x => { x with roomSettings := roomSettings }) roomId rooms,
      [Effect.emit (Target.room roomId) "broadcastRoomSettings" (Payload.settings roomSettings)]⟩

/-- Handler of `get-room-settings`. -/
def getRoomSettings (rooms : Rooms) (roomId : String) : Except JSError Result :=
  let settings := match getProp rooms roomId with
    | Slot.room r => r.roomSettings
    | _ => JSVal.prim JSPrim.undefined
  Except.ok ⟨rooms,
    [Effect.emit (Target.room roomId) "getRoomSettings" (Payload.settings settings)]⟩

/-- Position of the first element satisfying `p`, if there is one. -/
def findIndex {α : Type} (p : α → Bool) : List α → Option Nat
  | [] => none
  | x :: xs => if p x then some 0 else (findIndex p xs).map (fun i => i + 1)

/-- The call `xs.indexOf(x)` on an array of strings, with `-1` for absent. -/
def indexOf (xs : List String) (x : String) : Int :=
  match findIndex (fun y => decide (y = x)) xs with
  | some i => (i : Int)
  | none => -1

/-- The call `xs.splice(index, 1)` for `0 ≤ index`. -/
def splice1 {α : Type} (xs : List α) (index : Int) : List α :=
  xs.eraseIdx index.toNat

/-- Handler of `disconnected-from-game`.  The guard `if (roomId)` is the
truthiness of a string: false exactly for the empty string. -/
def disconnectedFromGame (rooms : Rooms) (roomId socketId : String) :
    Except JSError Result :=
  if roomId ≠ "" then
    match getProp rooms roomId with
    | Slot.undefined =>
      -- `index` is `undefined`, and `undefined !== -1` holds
      Except.ok ⟨rooms,
        [Effect.emit (Target.room roomId) "changeInUsers" (Payload.users none roomId)]⟩
    | Slot.builtin => Except.error (JSError.typeError "undefined.length")
    | Slot.room r =>
      if r.roomData.length = 1 then
        Except.ok ⟨deleteRoom roomId rooms, []⟩
      else
        let index := indexOf (r.roomData.map (fun rd => rd.socketId)) socketId
        if index ≠ -1 then
          let roomData := splice1 r.roomData index
          Except.ok ⟨modifyRoom (fun x => { x with roomData := roomData }) roomId rooms,
            [Effect.emit (Target.room roomId) "changeInUsers"
              (Payload.users (some roomData) roomId)]⟩
        else Except.ok ⟨rooms, []⟩
  else Except.ok ⟨rooms, []⟩

/-- Strict equality `===` of a participant object with a string: values of
different types are never strictly equal. -/
def Participant.strictEqString (_p : Participant) (_s : String) : Bool :=
  false

/-- The call `roomData.indexOf(socket.id)` of the `disconnect` handler: the
elements are participant objects, the argument is a string. -/
def indexOfSocket (roomData : List Participant) (socketId : String) : Int :=
  match findIndex (fun p => p.strictEqString socketId) roomData with
  | some i => (i : Int)
  | none => -1

/-- The `for (const roomId in rooms)` loop of the `disconnect` handler over
the keys still to visit; it stops at the first room it spliced. -/
def disconnectLoop (socketId : String) : List String → Rooms → Result
  | [], rooms => ⟨rooms, []⟩
  | roomId :: more, rooms =>
    match liveRoom rooms roomId with
    | none => disconnectLoop socketId more rooms
    | some r =>
      let index := indexOfSocket r.roomData socketId
      if index ≠ -1 then
        ⟨modifyRoom (fun x => { x with roomData := splice1 x.roomData index }) roomId rooms,
         [Effect.emit (Target.room roomId) "userLeft" (Payload.str socketId)]⟩
      else disconnectLoop socketId more rooms

/-- Registry part of the `disconnect` handler. -/
def disconnectRooms (rooms : Rooms) (socketId : String) : Result :=
  disconnectLoop socketId (rooms.map (fun e => e.1)) rooms

/-! ## Countdown engine -/

/-- The object `countdownState`. -/
structure CountdownState where
  seconds : Int
  interval : Option Nat
  startTime : Option Int
  pausedTime : Int
deriving DecidableEq, Repr

/-- The object literal `{ seconds: 0, interval: null, startTime: null, pausedTime: 0 }`. -/
def CountdownState.initial : CountdownState :=
  ⟨0, none, none, 0⟩

/-- A scheduled `setInterval` callback; its closure captured the local
`startTime` and the argument `seconds` of `startCountdown`. -/
structure Timer where
  id : Nat
  startTime : Int
  seconds : Int
deriving DecidableEq, Repr

/-- The countdown state together with the callbacks the runtime has scheduled
and the next unused interval handle. -/
structure Engine where
  countdownState : CountdownState
  timers : List Timer
  nextId : Nat
deriving DecidableEq, Repr

/-- The engine at process start. -/
def Engine.initial : Engine :=
  ⟨CountdownState.initial, [], 0⟩

/-- Numeric value of `countdownState.startTime` in a subtraction: `null` is `0`. -/
def toNumber : Option Int → Int
  | none => 0
  | some t => t

/-- The call `clearInterval(handle)`; clearing `null` does nothing. -/
def clearInterval (handle : Option Nat) (timers : List Timer) : List Timer :=
  match handle with
  | none => timers
  | some i => timers.filter (fun t => decide (t.id ≠ i))

/-- The function `startCountdown(seconds)` called at time `now`. -/
def startCountdown (e : Engine) (seconds now : Int) : Engine :=
  if e.countdownState.interval.isNone then
    let startTime := now - e.countdownState.pausedTime
    { countdownState := { e.countdownState with interval := some e.nextId },
      timers := e.timers ++ [⟨e.nextId, startTime, seconds⟩],
      nextId := e.nextId + 1 }
  else e

/-- The value `Math.max(0, seconds - Math.floor((now - startTime) / 1000))`. -/
def remainingAt (seconds startTime now : Int) : Int :=
  max 0 (seconds - (now - startTime) / 1000)

/-- The body of the interval callback of timer `t`, run at time `now`. -/
def tick (e : Engine) (t : Timer) (now : Int) : Engine × List Effect :=
  let remainingSeconds := remainingAt t.seconds t.startTime now
  let out := [Effect.emit Target.everyone "countdown" (Payload.num remainingSeconds)]
  if remainingSeconds = 0 then
    ({ e with
        timers := clearInterval e.countdownState.interval e.timers,
        countdownState := { e.countdownState with interval := none } }, out)
  else (e, out)

/-- The runtime fires the interval with handle `id` at time `now`, provided it
is still scheduled. -/
def fire (e : Engine) (id : Nat) (now : Int) : Engine × List Effect :=
  match e.timers.find? (fun t => decide (t.id = id)) with
  | none => (e, [])
  | some t => tick e t now

/-- The function `stopCountdown()` called at time `now`. -/
def stopCountdown (e : Engine) (now : Int) : Engine :=
  if e.countdownState.interval.isSome then
    { e with
      timers := clearInterval e.countdownState.interval e.timers,
      countdownState :=
        { e.countdownState with
          interval := none,
          pausedTime := now - toNumber e.countdownState.startTime } }
  else e

/-- Handler of `startCountdown`. -/
def startCountdownHandler (e : Engine) (socketId : String) (seconds now : Int) :
    Engine × List Effect :=
  let e1 := startCountdown e seconds now
  (e1, [Effect.emit (Target.room socketId) "countdown" (Payload.num e1.countdownState.seconds)])

/-- Handler of `getInitialCountdown`, run at time `now`. -/
def getInitialCountdown (e : Engine) (socketId : String) (now : Int) : List Effect :=
  let remainingSeconds :=
    remainingAt e.countdownState.seconds (toNumber e.countdownState.startTime) now
  [Effect.emit (Target.room socketId) "countdown" (Payload.num remainingSeconds)]

/-- Countdown part of the `disconnect` handler: `countdownState` is replaced by
a fresh literal; no interval is cleared. -/
def disconnectCountdown (e : Engine) : Engine :=
  { e with countdownState := CountdownState.initial }

/-- The interval with handle `id` fires at each of the given times in turn. -/
def runTicks (id : Nat) : Engine → List Int → Engine × List Effect
  | e, [] => (e, [])
  | e, now :: later =>
    let r1 := fire e id now
    let r2 := runTicks id r1.1 later
    (r2.1, r1.2 ++ r2.2)

/-- The numbers carried by the `countdown` events among the effects. -/
def countdownValues : List Effect → List Int
  | [] => []
  | Effect.emit _ "countdown" (Payload.num n) :: rest => n :: countdownValues rest
  | _ :: rest => countdownValues rest

/-! ## The server as a whole -/

/-- Registry and countdown engine of the process. -/
structure Server where
  rooms : Rooms
  engine : Engine
deriving DecidableEq, Repr

/-- The server at process start. -/
def Server.initial : Server :=
  ⟨[], Engine.initial⟩

/-- The `disconnect` handler run for the connection `socketId`. -/
def disconnect (s : Server) (socketId : String) : Server × List Effect :=
  let r := disconnectRooms s.rooms socketId
  (⟨r.rooms, disconnectCountdown s.engine⟩, r.out)

/-- Successive `createRoom` calls.  A call whose identifier loop does not
return blocks the process, so no later call runs. -/
def createRooms : Rooms → List (String × String × List String) → Rooms × List String
  | rooms, [] => (rooms, [])
  | rooms, (socketId, username, renderings) :: calls =>
    match createRoom rooms socketId username renderings with
    | none => (rooms, [])
    | some (roomId, res) =>
      let r := createRooms res.rooms calls
      (r.1, roomId :: r.2)

/-! ## Handler events on the registry -/

/-- An inbound event that reads or writes the registry. -/
inductive RegistryEvent where
  | createRoom (socketId username : String) (renderings : List String)
  | joinRoom (socketId roomId username : String)
  | getUsers (socketId roomId : String)
  | startGame (roomId : String)
  | checkRoom (socketId roomId : String)
  | setRoomSettings (roomSettings : JSVal) (roomId : String)
  | getRoomSettings (roomId : String)
  | disconnectedFromGame (roomId socketId : String)
  | disconnect (socketId : String)
deriving DecidableEq, Repr

/-- The registry a handler leaves behind; a handler that threw had written
nothing. -/
def roomsAfter (rooms : Rooms) : Except JSError Result → Rooms
  | Except.ok res => res.rooms
  | Except.error _ => rooms

/-- The registry after the handler of one event. -/
def registryStep (rooms : Rooms) : RegistryEvent → Rooms
  | RegistryEvent.createRoom socketId username renderings =>
    match createRoom rooms socketId username renderings with
    | some (_, res) => res.rooms
    | none => rooms
  | RegistryEvent.joinRoom socketId roomId username =>
    roomsAfter rooms (joinRoom rooms socketId roomId username)
  | RegistryEvent.getUsers socketId roomId => roomsAfter rooms (getUsers rooms socketId roomId)
  | RegistryEvent.startGame roomId => roomsAfter rooms (startGame rooms roomId)
  | RegistryEvent.checkRoom socketId roomId =>
    roomsAfter rooms (checkRoomHandler rooms socketId roomId)
  | RegistryEvent.setRoomSettings roomSettings roomId =>
    roomsAfter rooms (setRoomSettings rooms roomSettings roomId)
  | RegistryEvent.getRoomSettings roomId => roomsAfter rooms (getRoomSettings rooms roomId)
  | RegistryEvent.disconnectedFromGame roomId socketId =>
    roomsAfter rooms (disconnectedFromGame rooms roomId socketId)
  | RegistryEvent.disconnect socketId => (disconnectRooms rooms socketId).rooms

/-- The registry reached from the empty registry by a sequence of events. -/
def registryRun (events : List RegistryEvent) : Rooms :=
  events.foldl registryStep []

/-- Every live room has at least one participant. -/
def RoomsPopulated (rooms : Rooms) : Prop :=
  ∀ e ∈ rooms, 1 ≤ e.2.roomData.length

/-- The countdown is started with `s` at time `t0` from the initial state and
its interval (handle `0`) fires at the given times. -/
def countdownRun (s t0 : Int) (ticks : List Int) : Engine × List Effect :=
  runTicks 0 (startCountdown Engine.initial s t0) ticks

/-- The values a countdown anchored at `t0` broadcasts at the given times, up
to and including its first `0`. -/
def expectedValues (s t0 : Int) : List Int → List Int
  | [] => []
  | t :: later =>
    if remainingAt s t0 t = 0 then [0] else remainingAt s t0 t :: expectedValues s t0 later

/-! ## Reading the settings -/

/-- The read `o[key]` on a flat object; an absent key reads `undefined`. -/
def getField (key : String) : List (String × JSPrim) → JSPrim
  | [] => JSPrim.undefined
  | (k, v) :: rest => if k = key then v else getField key rest

/-- The read `settings[key]` of a settings key: it throws on `undefined` and
`null`, and no other primitive carries such a key. -/
def readField (key : String) : JSVal → Except JSError JSPrim
  | JSVal.prim JSPrim.undefined => Except.error (JSError.typeError "undefined[key]")
  | JSVal.prim JSPrim.null => Except.error (JSError.typeError "null[key]")
  | JSVal.prim _ => Except.ok JSPrim.undefined
  | JSVal.obj fields => Except.ok (getField key fields)

/-- The started flag of a room, `room.roomSettings.isStarted`. -/
def Room.isStarted (r : Room) : Except JSError JSPrim :=
  readField "isStarted" r.roomSettings

/-! ## Events on the countdown engine -/

/-- A call of `startCountdown` or `stopCountdown`, the firing of the interval
with a given handle, or the disconnect of a connection. -/
inductive CountdownEvent where
  | startCountdown (seconds now : Int)
  | stopCountdown (now : Int)
  | tick (id : Nat) (now : Int)
  | disconnect
deriving DecidableEq, Repr

/-- The engine after one event, with what the event broadcast.  When a
connection disconnects no code of the program runs: its only `disconnect`
listener is registered on the server object `io`, whereas the disconnect of a
connection is emitted on that connection's socket, on which the program
registers no listener for it. -/
def engineStep (e : Engine) : CountdownEvent → Engine × List Effect
  | CountdownEvent.startCountdown seconds now => (startCountdown e seconds now, [])
  | CountdownEvent.stopCountdown now => (stopCountdown e now, [])
  | CountdownEvent.tick id now => fire e id now
  | CountdownEvent.disconnect => (e, [])

/-- The engine after a sequence of events, with everything broadcast. -/
def engineRun : Engine → List CountdownEvent → Engine × List Effect
  | e, [] => (e, [])
  | e, ev :: more =>
    let r1 := engineStep e ev
    let r2 := engineRun r1.1 more
    (r2.1, r1.2 ++ r2.2)

/-! ## Lookup lemmas -/

theorem liveRoom_nil (k : String) : liveRoom [] k = none := rfl

theorem liveRoom_cons (k k1 : String) (r : Room) (rooms : Rooms) :
    liveRoom ((k1, r) :: rooms) k = if k = k1 then some r else liveRoom rooms k := by
  unfold liveRoom
  by_cases h : k = k1
  · subst h
    simp [List.lookup]
  · have hb : (k == k1) = false := by simpa using h
    simp [List.lookup, hb, h]

theorem deleteRoom_cons (k k1 : String) (r : Room) (rooms : Rooms) :
    deleteRoom k ((k1, r) :: rooms) =
      if k1 = k then deleteRoom k rooms else (k1, r) :: deleteRoom k rooms := by
  by_cases h : k1 = k <;> simp [deleteRoom, List.filter_cons, h]

theorem modifyRoom_cons (f : Room → Room) (k k1 : String) (r : Room) (rooms : Rooms) :
    modifyRoom f k ((k1, r) :: rooms) =
      (if k1 = k then (k1, f r) else (k1, r)) :: modifyRoom f k rooms := by
  simp [modifyRoom]

theorem liveRoom_deleteRoom_self (k : String) (rooms : Rooms) :
    liveRoom (deleteRoom k rooms) k = none := by
  induction rooms with
  | nil => rfl
  | cons e rest ih =>
    obtain ⟨k1, r⟩ := e
    rw [deleteRoom_cons]
    by_cases h : k1 = k
    · rw [if_pos h]
      exact ih
    · have h2 : ¬ k = k1 := fun x => h x.symm
      rw [if_neg h, liveRoom_cons, if_neg h2]
      exact ih

theorem liveRoom_deleteRoom_ne (k k2 : String) (hne : k2 ≠ k) (rooms : Rooms) :
    liveRoom (deleteRoom k rooms) k2 = liveRoom rooms k2 := by
  induction rooms with
  | nil => rfl
  | cons e rest ih =>
    obtain ⟨k1, r⟩ := e
    rw [deleteRoom_cons]
    by_cases h : k1 = k
    · have h2 : ¬ k2 = k1 := fun x => hne (x.trans h)
      rw [if_pos h, liveRoom_cons, if_neg h2]
      exact ih
    · rw [if_neg h, liveRoom_cons, liveRoom_cons, ih]

theorem liveRoom_modifyRoom (f : Room → Room) (k k2 : String) (rooms : Rooms) :
    liveRoom (modifyRoom f k rooms) k2 =
      if k2 = k then (liveRoom rooms k2).map f else liveRoom rooms k2 := by
  induction rooms with
  | nil => simp [modifyRoom, liveRoom_nil]
  | cons e rest ih =>
    obtain ⟨k1, r⟩ := e
    rw [modifyRoom_cons]
    by_cases h : k1 = k
    · rw [if_pos h, liveRoom_cons, liveRoom_cons, ih]
      by_cases h2 : k2 = k1
      · have h3 : k2 = k := h2.trans h
        simp [h2, h3, h]
      · simp [h2]
    · rw [if_neg h, liveRoom_cons, liveRoom_cons, ih]
      by_cases h2 : k2 = k1
      · have h3 : ¬ k2 = k := fun x => h (h2.symm.trans x)
        have h4 : ¬ k1 = k := h
        simp [h2, h4]
      · simp [h2]

theorem liveRoom_append_single (k k2 : String) (r : Room) (rooms : Rooms) :
    liveRoom (rooms ++ [(k, r)]) k2 =
      match liveRoom rooms k2 with
      | some x => some x
      | none => if k2 = k then some r else none := by
  induction rooms with
  | nil => simp [liveRoom_cons, liveRoom_nil]
  | cons e rest ih =>
    obtain ⟨k1, r1⟩ := e
    simp only [List.cons_append, liveRoom_cons]
    by_cases h : k2 = k1
    · simp [h]
    · simp [h]
      exact ih

theorem liveRoom_some_mem (rooms : Rooms) (k : String) (r : Room)
    (h : liveRoom rooms k = some r) : (k, r) ∈ rooms := by
  induction rooms with
  | nil => simp [liveRoom_nil] at h
  | cons e rest ih =>
    obtain ⟨k1, r1⟩ := e
    rw [liveRoom_cons] at h
    by_cases h2 : k = k1
    · simp [h2] at h
      simp [h2, h]
    · simp [h2] at h
      exact List.mem_cons_of_mem _ (ih h)

theorem liveRoom_none_of_not_truthy (rooms : Rooms) (k : String)
    (h : (getProp rooms k).truthy = false) : liveRoom rooms k = none := by
  unfold getProp at h
  cases hl : liveRoom rooms k with
  | none => rfl
  | some r => simp [hl, Slot.truthy] at h

/-! ## Identifier generation -/

theorem generateUniqueRoomId_not_truthy (rooms : Rooms) (renderings : List String)
    (roomId : String) (h : generateUniqueRoomId rooms renderings = some roomId) :
    (getProp rooms roomId).truthy = false := by
  induction renderings with
  | nil => simp [generateUniqueRoomId] at h
  | cons r more ih =>
    unfold generateUniqueRoomId at h
    by_cases ht : (getProp rooms (substring7 r)).truthy = true
    · simp only [ht, if_true] at h
      exact ih h
    · simp only [ht] at h
      have h2 : substring7 r = roomId := by simpa using h
      rw [← h2]
      simpa using ht

theorem generateUniqueRoomId_returns (rooms : Rooms) (renderings : List String)
    (h : ∃ r ∈ renderings, (getProp rooms (substring7 r)).truthy = false) :
    (generateUniqueRoomId rooms renderings).isSome = true := by
  induction renderings with
  | nil => simp at h
  | cons r more ih =>
    unfold generateUniqueRoomId
    by_cases ht : (getProp rooms (substring7 r)).truthy = true
    · simp only [ht, if_true]
      apply ih
      obtain ⟨x, hx, hf⟩ := h
      rcases List.mem_cons.mp hx with h1 | h1
      · rw [h1, ht] at hf
        exact absurd hf (by decide)
      · exact ⟨x, h1, hf⟩
    · simp [ht]

theorem createRoom_rooms (rooms : Rooms) (socketId username : String)
    (renderings : List String) (roomId : String) (res : Result)
    (h : createRoom rooms socketId username renderings = some (roomId, res)) :
    liveRoom rooms roomId = none ∧
      res.rooms = rooms ++ [(roomId, ⟨[Participant.mk socketId username true], defaultSettings⟩)] := by
  unfold createRoom at h
  cases hg : generateUniqueRoomId rooms renderings with
  | none => simp [hg] at h
  | some k =>
    simp only [hg, Option.some.injEq, Prod.mk.injEq] at h
    obtain ⟨hk, hres⟩ := h
    subst hk
    have hl : liveRoom rooms k = none :=
      liveRoom_none_of_not_truthy rooms k (generateUniqueRoomId_not_truthy rooms renderings k hg)
    refine ⟨hl, ?_⟩
    rw [← hres]
    simp [assignRoom, hl]

theorem createRooms_fresh (calls : List (String × String × List String)) :
    ∀ rooms : Rooms, (createRooms rooms calls).2.Nodup ∧
      ∀ id ∈ (createRooms rooms calls).2,
        liveRoom rooms id = none ∧ (liveRoom (createRooms rooms calls).1 id).isSome = true := by
  induction calls with
  | nil => intro rooms; simp [createRooms]
  | cons c calls ih =>
    intro rooms
    obtain ⟨socketId, username, renderings⟩ := c
    unfold createRooms
    cases hc : createRoom rooms socketId username renderings with
    | none => simp
    | some p =>
      obtain ⟨roomId, res⟩ := p
      obtain ⟨hl, hres⟩ := createRoom_rooms rooms socketId username renderings roomId res hc
      obtain ⟨hnd, hfresh⟩ := ih res.rooms
      have hlive : liveRoom res.rooms roomId
          = some ⟨[Participant.mk socketId username true], defaultSettings⟩ := by
        rw [hres, liveRoom_append_single, hl]
        simp
      have hkeep : ∀ k : String, (liveRoom rooms k).isSome = true →
          (liveRoom res.rooms k).isSome = true := by
        intro k hk
        rw [hres, liveRoom_append_single]
        cases hx : liveRoom rooms k with
        | none => simp [hx] at hk
        | some x => simp
      have hmono : ∀ (cs : List (String × String × List String)) (rs : Rooms) (k : String),
          (liveRoom rs k).isSome = true → (liveRoom (createRooms rs cs).1 k).isSome = true := by
        intro cs
        induction cs with
        | nil => intro rs k hk; simpa [createRooms] using hk
        | cons c2 cs ih2 =>
          intro rs k hk
          obtain ⟨s2, u2, r2⟩ := c2
          unfold createRooms
          cases hc2 : createRoom rs s2 u2 r2 with
          | none => simpa using hk
          | some p2 =>
            obtain ⟨id2, res2⟩ := p2
            obtain ⟨_, hres2⟩ := createRoom_rooms rs s2 u2 r2 id2 res2 hc2
            simp only
            apply ih2
            rw [hres2, liveRoom_append_single]
            cases hx : liveRoom rs k with
            | none => simp [hx] at hk
            | some x => simp
      simp only
      refine ⟨?_, ?_⟩
      · refine List.nodup_cons.mpr ⟨?_, hnd⟩
        intro hmem
        have := (hfresh roomId hmem).1
        rw [hlive] at this
        exact absurd this (by simp)
      · intro id hid
        rcases List.mem_cons.mp hid with h1 | h1
        · subst h1
          refine ⟨hl, ?_⟩
          apply hmono
          rw [hlive]
          rfl
        · obtain ⟨hn, hs⟩ := hfresh id h1
          refine ⟨?_, hs⟩
          rw [hres, liveRoom_append_single] at hn
          cases hx : liveRoom rooms id with
          | none => rfl
          | some x => simp [hx] at hn

/-- Claim C4.  Whenever `generateUniqueRoomId` returns, the identifier it
returns is not the identifier of a live room; it does return as soon as the
random source offers a candidate under which `rooms` holds nothing; and in a
sequence of `createRoom` calls the generated identifiers are pairwise
distinct, none was live before the sequence and each is live after it. -/
theorem generateUniqueRoomId_unique (rooms : Rooms) :
    (∀ (renderings : List String) (roomId : String),
        generateUniqueRoomId rooms renderings = some roomId → liveRoom rooms roomId = none) ∧
    (∀ renderings : List String,
        (∃ r ∈ renderings, (getProp rooms (substring7 r)).truthy = false) →
        (generateUniqueRoomId rooms renderings).isSome = true) ∧
    (∀ calls : List (String × String × List String),
        (createRooms rooms calls).2.Nodup ∧
        ∀ id ∈ (createRooms rooms calls).2,
          liveRoom rooms id = none ∧ (liveRoom (createRooms rooms calls).1 id).isSome = true) :=
  ⟨fun renderings roomId h =>
      liveRoom_none_of_not_truthy rooms roomId
        (generateUniqueRoomId_not_truthy rooms renderings roomId h),
   fun renderings h => generateUniqueRoomId_returns rooms renderings h,
   fun calls => createRooms_fresh calls rooms⟩

/-- Witness of C4: with a room live under `abc`, the candidate `abc` is
re-rolled and `xyz` is returned, which is not live. -/
theorem generateUniqueRoomId_unique_witness :
    generateUniqueRoomId [("abc", ⟨[⟨"A", "alice", true⟩], defaultSettings⟩)]
        ["0.12345abc", "0.12345xyz"] = some "xyz" ∧
      liveRoom [("abc", ⟨[⟨"A", "alice", true⟩], defaultSettings⟩)] "xyz" = none :=
  ⟨by decide,
   (generateUniqueRoomId_unique [("abc", ⟨[⟨"A", "alice", true⟩], defaultSettings⟩)]).1
     ["0.12345abc", "0.12345xyz"] "xyz" (by decide)⟩

/-! ## Joining a room that is not there -/

/-- For an identifier that is neither live nor a name inherited from
`Object.prototype`, `joinRoom` sends `roomNotFound` to the caller and nothing
else, and keeps the registry. -/
theorem joinRoom_absent (rooms : Rooms) (socketId roomId username : String)
    (h : liveRoom rooms roomId = none) (hp : roomId ∉ objectPrototypeKeys) :
    joinRoom rooms socketId roomId username =
      Except.ok ⟨rooms, [Effect.emit (Target.socket socketId) "roomNotFound" Payload.none]⟩ := by
  simp [joinRoom, hasProp, h, hp]

/-- Claim C1, evaluated where it fails.  No room is live under `toString`, yet
`"toString" in rooms` holds by inheritance: `joinRoom` takes the success
branch, joins the socket to the channel, acknowledges and emits `userJoined`
to the channel, and no `roomNotFound` is sent. -/
theorem joinRoom_inherited_key :
    liveRoom [] "toString" = none ∧
    joinRoom [] "a" "toString" "u" =
      Except.ok ⟨[],
        [Effect.join "a" "toString",
         Effect.emit Target.ack "" (Payload.roomInfo "a" "toString" none),
         Effect.emit (Target.room "toString") "userJoined"
           (Payload.roomInfo "a" "toString" none)]⟩ ∧
    joinRoom [] "a" "toString" "u" ≠
      Except.ok ⟨[], [Effect.emit (Target.socket "a") "roomNotFound" Payload.none]⟩ := by
  decide

/-! ## The last member leaves -/

/-- For a non-empty identifier, `disconnected-from-game` on a live room with
exactly one member deletes the room, emits nothing and keeps every other
room. -/
theorem disconnectedFromGame_last (rooms : Rooms) (roomId socketId : String) (r : Room)
    (hid : roomId ≠ "") (h : liveRoom rooms roomId = some r) (hlen : r.roomData.length = 1) :
    disconnectedFromGame rooms roomId socketId = Except.ok ⟨deleteRoom roomId rooms, []⟩ ∧
    liveRoom (deleteRoom roomId rooms) roomId = none ∧
    ∀ k : String, k ≠ roomId → liveRoom (deleteRoom roomId rooms) k = liveRoom rooms k := by
  refine ⟨?_, liveRoom_deleteRoom_self roomId rooms,
    fun k hk => liveRoom_deleteRoom_ne roomId k hk rooms⟩
  simp [disconnectedFromGame, hid, getProp, h, hlen]

/-- Claim C2, evaluated where it fails.  The rendering `0.i` (the value one
half in base 36) makes `generateUniqueRoomId` return the empty string; the
room created under it has one member, and `disconnected-from-game` with that
identifier and that member is skipped by the guard `if (roomId)`: the room
stays live and `checkRoom` still reports it. -/
theorem disconnectedFromGame_empty_id :
    (createRoom [] "A" "alice" ["0.i"]).map (fun x => (x.1, x.2.rooms)) =
      some ("", [("", ⟨[⟨"A", "alice", true⟩], defaultSettings⟩)]) ∧
    disconnectedFromGame [("", ⟨[⟨"A", "alice", true⟩], defaultSettings⟩)] "" "A" =
      Except.ok ⟨[("", ⟨[⟨"A", "alice", true⟩], defaultSettings⟩)], []⟩ ∧
    checkRoom [("", ⟨[⟨"A", "alice", true⟩], defaultSettings⟩)] "" = Except.ok true := by
  decide

/-! ## Pausing and resuming the countdown -/

/-- After start at `t0`, stop at `t1` and start at `t2`, all from the initial
state, the tick at `t3` broadcasts `max 0 (s - ⌊(t3 - (t2 - t1)) / 1000⌋)`:
the pause recorded `t1` itself, because `countdownState.startTime` is still
`null` when `stopCountdown` subtracts it. -/
theorem resume_broadcast (s t0 t1 t2 t3 : Int) :
    countdownValues
        (fire (startCountdown (stopCountdown (startCountdown Engine.initial s t0) t1) s t2)
          1 t3).2 =
      [max 0 (s - (t3 - (t2 - t1)) / 1000)] := by
  simp only [startCountdown, stopCountdown, Engine.initial, CountdownState.initial,
    Option.isNone_none, Option.isSome_some, if_true, toNumber, clearInterval, fire, tick,
    remainingAt, List.nil_append, sub_zero]
  simp only [List.filter, List.find?]
  simp only [decide_not, decide_True, Bool.not_true, Option.isNone_none, if_true,
    List.nil_append, zero_add, List.find?]
  split <;> simp [countdownValues]

/-- Claim C3, evaluated where it fails.  Start with 10 at 5000, stop at 5500,
start again at 6000: the tick at 7000 broadcasts 4, whereas 500 ms run before
the pause and 1000 ms after it call for `max 0 (10 - ⌊1500 / 1000⌋) = 9`. -/
theorem resume_loses_anchor :
    countdownValues
        (fire (startCountdown (stopCountdown (startCountdown Engine.initial 10 5000) 5500) 10 6000)
          1 7000).2 = [4] ∧
    max (0 : Int) (10 - ((5500 - 5000) + (7000 - 6000)) / 1000) = 9 ∧
    (stopCountdown (startCountdown Engine.initial 10 5000) 5500).countdownState.pausedTime
      = 5500 := by
  decide

/-! ## Snapshot of the remaining time -/

/-- After a start from the initial state, `getInitialCountdown` answers
`max 0 (0 - ⌊now / 1000⌋)` whatever the duration: `startCountdown` stores
neither `seconds` nor `startTime` in `countdownState`. -/
theorem getInitialCountdown_after_start (s t now : Int) (socketId : String) :
    getInitialCountdown (startCountdown Engine.initial s t) socketId now =
      [Effect.emit (Target.room socketId) "countdown" (Payload.num (max 0 (0 - now / 1000)))] := by
  simp [getInitialCountdown, startCountdown, Engine.initial, CountdownState.initial,
    remainingAt, toNumber]

/-- Claim C5, evaluated where it fails.  After `startCountdown(3)` at 5000 the
query made 1000 ms later is answered with 0, not with a value in `{1, 2}`; the
claimed value there is `max 0 (3 - ⌊1000 / 1000⌋) = 2`. -/
theorem getInitialCountdown_ignores_start :
    getInitialCountdown (startCountdown Engine.initial 3 5000) "a" 6000 =
      [Effect.emit (Target.room "a") "countdown" (Payload.num 0)] ∧
    max (0 : Int) (3 - 1000 / 1000) = 2 ∧
    (startCountdown Engine.initial 3 5000).countdownState.seconds = 0 ∧
    (startCountdown Engine.initial 3 5000).countdownState.startTime = none := by
  decide

/-! ## Stale references in `disconnected-from-game` -/

/-- Claim C6, evaluated where it fails.  (1) The room `r` holds only `A`; the
event for `r` and the stranger `Z` deletes the room.  (2) No room is live
under `r`; the event for `r` emits `changeInUsers` with an undefined member
list.  (3) With two members and a stranger the handler does nothing. -/
theorem disconnectedFromGame_stale :
    disconnectedFromGame [("r", ⟨[⟨"A", "alice", true⟩], defaultSettings⟩)] "r" "Z" =
      Except.ok ⟨[], []⟩ ∧
    disconnectedFromGame [] "r" "Z" =
      Except.ok ⟨[], [Effect.emit (Target.room "r") "changeInUsers" (Payload.users none "r")]⟩ ∧
    disconnectedFromGame
        [("r", ⟨[⟨"A", "alice", true⟩, ⟨"B", "bob", false⟩], defaultSettings⟩)] "r" "Z" =
      Except.ok ⟨[("r", ⟨[⟨"A", "alice", true⟩, ⟨"B", "bob", false⟩], defaultSettings⟩)], []⟩ := by
  decide

/-! ## Handlers addressed to a room that is not live -/

/-- Claim C8, evaluated where it fails.  In the empty registry `startGame` and
`setRoomSettings` raise a `TypeError` on the identifier `r`, and so does
`disconnected-from-game` on the inherited name `toString`; the handlers that
read through `?.` complete. -/
theorem missing_room_throws :
    startGame [] "r" = Except.error (JSError.typeError "rooms[roomId].roomSettings") ∧
    setRoomSettings [] defaultSettings "r" =
      Except.error (JSError.typeError "rooms[roomId].roomSettings") ∧
    disconnectedFromGame [] "toString" "a" =
      Except.error (JSError.typeError "undefined.length") ∧
    getRoomSettings [] "r" =
      Except.ok ⟨[], [Effect.emit (Target.room "r") "getRoomSettings"
        (Payload.settings (JSVal.prim JSPrim.undefined))]⟩ ∧
    checkRoomHandler [] "a" "r" =
      Except.ok ⟨[], [Effect.emit (Target.room "a") "check-room-status"
        (Payload.roomStatus false Slot.undefined)]⟩ := by
  decide

/-! ## The `disconnect` handler -/

theorem findIndex_strictEqString (roomData : List Participant) (socketId : String) :
    findIndex (fun p => p.strictEqString socketId) roomData = none := by
  induction roomData with
  | nil => rfl
  | cons p rest ih =>
    unfold findIndex
    rw [ih]
    rfl

theorem indexOfSocket_eq (roomData : List Participant) (socketId : String) :
    indexOfSocket roomData socketId = -1 := by
  simp [indexOfSocket, findIndex_strictEqString]

theorem disconnectLoop_eq (socketId : String) (keys : List String) (rooms : Rooms) :
    disconnectLoop socketId keys rooms = ⟨rooms, []⟩ := by
  induction keys with
  | nil => rfl
  | cons k more ih =>
    unfold disconnectLoop
    cases h : liveRoom rooms k with
    | none => simpa using ih
    | some r => simp [indexOfSocket_eq, ih]

/-- The `disconnect` handler never changes the registry and never emits
`userLeft`: `roomData.indexOf(socket.id)` looks for a string among participant
objects and always yields `-1`. -/
theorem disconnectRooms_eq (rooms : Rooms) (socketId : String) :
    disconnectRooms rooms socketId = ⟨rooms, []⟩ :=
  disconnectLoop_eq socketId _ rooms

/-- Claim C9, evaluated where it fails.  `A` creates a room (identifier `abc`),
`B` joins it, then the `disconnect` handler runs for `B`: the member list
still has both participants, while `disconnected-from-game` for `B`, the
sibling path, leaves one. -/
theorem disconnect_keeps_member :
    (createRoom [] "A" "alice" ["0.12345abc"]).map (fun x => (x.1, x.2.rooms)) =
      some ("abc", [("abc", ⟨[⟨"A", "alice", true⟩], defaultSettings⟩)]) ∧
    roomsAfter [] (joinRoom [("abc", ⟨[⟨"A", "alice", true⟩], defaultSettings⟩)] "B" "abc" "bob") =
      [("abc", ⟨[⟨"A", "alice", true⟩, ⟨"B", "bob", false⟩], defaultSettings⟩)] ∧
    (disconnect
        ⟨[("abc", ⟨[⟨"A", "alice", true⟩, ⟨"B", "bob", false⟩], defaultSettings⟩)],
          Engine.initial⟩ "B").1.rooms =
      [("abc", ⟨[⟨"A", "alice", true⟩, ⟨"B", "bob", false⟩], defaultSettings⟩)] ∧
    (liveRoom (disconnect
        ⟨[("abc", ⟨[⟨"A", "alice", true⟩, ⟨"B", "bob", false⟩], defaultSettings⟩)],
          Engine.initial⟩ "B").1.rooms "abc").map (fun r => r.roomData.length) = some 2 ∧
    (liveRoom (roomsAfter [] (disconnectedFromGame
        [("abc", ⟨[⟨"A", "alice", true⟩, ⟨"B", "bob", false⟩], defaultSettings⟩)] "abc" "B"))
      "abc").map (fun r => r.roomData.length) = some 1 := by
  decide

/-! ## No empty room persists -/

theorem roomsPopulated_modifyRoom (f : Room → Room) (k : String) (rooms : Rooms)
    (hf : ∀ x : Room, 1 ≤ x.roomData.length → 1 ≤ (f x).roomData.length)
    (h : RoomsPopulated rooms) : RoomsPopulated (modifyRoom f k rooms) := by
  intro e he
  unfold modifyRoom at he
  obtain ⟨a, ha, hea⟩ := List.mem_map.mp he
  by_cases hk : a.1 = k
  · rw [if_pos hk] at hea
    rw [← hea]
    exact hf a.2 (h a ha)
  · rw [if_neg hk] at hea
    rw [← hea]
    exact h a ha

theorem roomsPopulated_deleteRoom (k : String) (rooms : Rooms)
    (h : RoomsPopulated rooms) : RoomsPopulated (deleteRoom k rooms) := by
  intro e he
  unfold deleteRoom at he
  exact h e (List.mem_of_mem_filter he)

theorem roomsPopulated_assignRoom (k : String) (room : Room) (rooms : Rooms)
    (hr : 1 ≤ room.roomData.length) (h : RoomsPopulated rooms) :
    RoomsPopulated (assignRoom k room rooms) := by
  unfold assignRoom
  split
  · exact roomsPopulated_modifyRoom _ k rooms (fun _ _ => hr) h
  · intro e he
    rcases List.mem_append.mp he with h1 | h1
    · exact h e h1
    · have : e = (k, room) := by simpa using h1
      rw [this]
      exact hr

theorem length_eraseIdx_pos {α : Type} (xs : List α) (i : Nat) (h : 2 ≤ xs.length) :
    1 ≤ (xs.eraseIdx i).length := by
  match xs, i, h with
  | _ :: _ :: _, 0, _ => simp [List.eraseIdx]
  | _ :: _ :: _, _ + 1, _ => simp [List.eraseIdx]

theorem indexOf_nil (x : String) : indexOf [] x = -1 := rfl

theorem roomsPopulated_createRoom (rooms : Rooms) (socketId username : String)
    (renderings : List String) (roomId : String) (res : Result)
    (hc : createRoom rooms socketId username renderings = some (roomId, res))
    (h : RoomsPopulated rooms) : RoomsPopulated res.rooms := by
  obtain ⟨_, hres⟩ := createRoom_rooms rooms socketId username renderings roomId res hc
  rw [hres]
  intro e he
  rcases List.mem_append.mp he with h1 | h1
  · exact h e h1
  · have : e = (roomId, ⟨[Participant.mk socketId username true], defaultSettings⟩) := by
      simpa using h1
    rw [this]
    simp

theorem roomsPopulated_joinRoom (rooms : Rooms) (socketId roomId username : String)
    (h : RoomsPopulated rooms) :
    RoomsPopulated (roomsAfter rooms (joinRoom rooms socketId roomId username)) := by
  unfold joinRoom
  split
  · split
    · simp only [roomsAfter]
      exact roomsPopulated_modifyRoom _ roomId rooms (fun _ _ => by simp) h
    · exact h
    · exact h
  · exact h

theorem roomsPopulated_startGame (rooms : Rooms) (roomId : String)
    (h : RoomsPopulated rooms) : RoomsPopulated (roomsAfter rooms (startGame rooms roomId)) := by
  unfold startGame
  split
  · exact h
  · exact h
  · split
    · exact h
    · simp only [roomsAfter]
      exact roomsPopulated_modifyRoom _ roomId rooms (fun _ hx => hx) h

theorem roomsPopulated_setRoomSettings (rooms : Rooms) (roomSettings : JSVal)
    (roomId : String) (h : RoomsPopulated rooms) :
    RoomsPopulated (roomsAfter rooms (setRoomSettings rooms roomSettings roomId)) := by
  unfold setRoomSettings
  split
  · exact h
  · exact h
  · simp only [roomsAfter]
    exact roomsPopulated_modifyRoom _ roomId rooms (fun _ hx => hx) h

theorem roomsPopulated_checkRoomHandler (rooms : Rooms) (socketId roomId : String)
    (h : RoomsPopulated rooms) :
    RoomsPopulated (roomsAfter rooms (checkRoomHandler rooms socketId roomId)) := by
  unfold checkRoomHandler
  split <;> exact h

theorem roomsPopulated_disconnectedFromGame (rooms : Rooms) (roomId socketId : String)
    (h : RoomsPopulated rooms) :
    RoomsPopulated (roomsAfter rooms (disconnectedFromGame rooms roomId socketId)) := by
  unfold disconnectedFromGame
  split
  · split
    · exact h
    · exact h
    · rename_i r hr
      split
      · exact roomsPopulated_deleteRoom roomId rooms h
      · rename_i hlen
        simp only
        split
        · rename_i hidx
          simp only [roomsAfter]
          refine roomsPopulated_modifyRoom _ roomId rooms (fun _ _ => ?_) h
          simp only [splice1]
          apply length_eraseIdx_pos
          cases hd : r.roomData with
          | nil =>
            rw [hd] at hidx
            exact absurd (indexOf_nil socketId) hidx
          | cons a rest =>
            cases rest with
            | nil => rw [hd] at hlen; exact absurd rfl hlen
            | cons b rest2 => simp
        · exact h
  · exact h

theorem roomsPopulated_registryStep (rooms : Rooms) (ev : RegistryEvent)
    (h : RoomsPopulated rooms) : RoomsPopulated (registryStep rooms ev) := by
  cases ev with
  | createRoom socketId username renderings =>
    simp only [registryStep]
    cases hc : createRoom rooms socketId username renderings with
    | none => exact h
    | some p => exact roomsPopulated_createRoom rooms socketId username renderings p.1 p.2 hc h
  | joinRoom socketId roomId username => exact roomsPopulated_joinRoom rooms _ _ _ h
  | getUsers socketId roomId => exact h
  | startGame roomId => exact roomsPopulated_startGame rooms roomId h
  | checkRoom socketId roomId => exact roomsPopulated_checkRoomHandler rooms _ _ h
  | setRoomSettings roomSettings roomId => exact roomsPopulated_setRoomSettings rooms _ _ h
  | getRoomSettings roomId => exact h
  | disconnectedFromGame roomId socketId =>
    exact roomsPopulated_disconnectedFromGame rooms _ _ h
  | disconnect socketId =>
    simp only [registryStep, disconnectRooms_eq]
    exact h

theorem roomsPopulated_foldl (events : List RegistryEvent) :
    ∀ rooms : Rooms, RoomsPopulated rooms → RoomsPopulated (events.foldl registryStep rooms) := by
  induction events with
  | nil => intro rooms h; exact h
  | cons ev more ih =>
    intro rooms h
    exact ih _ (roomsPopulated_registryStep rooms ev h)

/-- Claim C10.  In every registry reached from the empty registry by a
sequence of handler events, every live room has at least one participant. -/
theorem reachable_rooms_populated (events : List RegistryEvent) (roomId : String) (r : Room)
    (h : liveRoom (registryRun events) roomId = some r) : 1 ≤ r.roomData.length :=
  roomsPopulated_foldl events [] (fun _ he => absurd he (List.not_mem_nil _))
    (roomId, r) (liveRoom_some_mem _ roomId r h)

/-- Witness of C10: after `A` creates a room, `B` joins it and `A` leaves
through `disconnected-from-game`, the room is live with the one member `B`. -/
theorem reachable_rooms_populated_witness :
    liveRoom (registryRun
        [RegistryEvent.createRoom "A" "alice" ["0.12345abc"],
         RegistryEvent.joinRoom "B" "abc" "bob",
         RegistryEvent.disconnectedFromGame "abc" "A"]) "abc" =
      some ⟨[⟨"B", "bob", false⟩], defaultSettings⟩ ∧
    1 ≤ (Room.mk [⟨"B", "bob", false⟩] defaultSettings).roomData.length :=
  ⟨by decide,
   reachable_rooms_populated
     [RegistryEvent.createRoom "A" "alice" ["0.12345abc"],
      RegistryEvent.joinRoom "B" "abc" "bob",
      RegistryEvent.disconnectedFromGame "abc" "A"] "abc"
     ⟨[⟨"B", "bob", false⟩], defaultSettings⟩ (by decide)⟩

/-! ## A countdown run to completion -/

theorem startCountdown_initial (s t0 : Int) :
    startCountdown Engine.initial s t0 =
      ⟨⟨0, some 0, none, 0⟩, [⟨0, t0, s⟩], 1⟩ := by
  simp [startCountdown, Engine.initial, CountdownState.initial]

theorem runTicks_no_timer (id : Nat) (cs : CountdownState) (n : Nat) (ticks : List Int) :
    runTicks id ⟨cs, [], n⟩ ticks = (⟨cs, [], n⟩, []) := by
  induction ticks with
  | nil => rfl
  | cons t later ih =>
    unfold runTicks
    simp only [fire, List.find?]
    rw [ih]
    rfl

theorem fire_running_zero (s t0 t : Int) (h : remainingAt s t0 t = 0) :
    fire ⟨⟨0, some 0, none, 0⟩, [⟨0, t0, s⟩], 1⟩ 0 t =
      (⟨⟨0, none, none, 0⟩, [], 1⟩,
        [Effect.emit Target.everyone "countdown" (Payload.num 0)]) := by
  simp [fire, tick, h, clearInterval]

theorem fire_running_pos (s t0 t : Int) (h : remainingAt s t0 t ≠ 0) :
    fire ⟨⟨0, some 0, none, 0⟩, [⟨0, t0, s⟩], 1⟩ 0 t =
      (⟨⟨0, some 0, none, 0⟩, [⟨0, t0, s⟩], 1⟩,
        [Effect.emit Target.everyone "countdown" (Payload.num (remainingAt s t0 t))]) := by
  simp [fire, tick, h]

theorem countdownValues_map (vals : List Int) :
    countdownValues
      (vals.map (fun v => Effect.emit Target.everyone "countdown" (Payload.num v))) = vals := by
  induction vals with
  | nil => rfl
  | cons v rest ih => simp [countdownValues, ih]

theorem runTicks_running (s t0 : Int) (ticks : List Int) :
    runTicks 0 ⟨⟨0, some 0, none, 0⟩, [⟨0, t0, s⟩], 1⟩ ticks =
      (if 0 ∈ expectedValues s t0 ticks then ⟨⟨0, none, none, 0⟩, [], 1⟩
        else ⟨⟨0, some 0, none, 0⟩, [⟨0, t0, s⟩], 1⟩,
       (expectedValues s t0 ticks).map
         (fun v => Effect.emit Target.everyone "countdown" (Payload.num v))) := by
  induction ticks with
  | nil => simp [runTicks, expectedValues]
  | cons t later ih =>
    unfold runTicks expectedValues
    by_cases h : remainingAt s t0 t = 0
    · rw [fire_running_zero s t0 t h]
      simp only [runTicks_no_timer, h, if_true]
      simp
    · rw [fire_running_pos s t0 t h]
      simp only [ih, h, if_false]
      have h2 : ¬ (0 = remainingAt s t0 t) := fun x => h x.symm
      simp [h2]

theorem expectedValues_bound (s t0 : Int) (ticks : List Int) :
    ∀ a : Int, List.Chain (fun x y => x + 1000 ≤ y) a ticks →
      ∀ v ∈ expectedValues s t0 ticks, 0 ≤ v ∧ v ≤ remainingAt s t0 a := by
  induction ticks with
  | nil => intro a _ v hv; simp [expectedValues] at hv
  | cons t later ih =>
    intro a hc v hv
    obtain ⟨hat, hrest⟩ := List.chain_cons.mp hc
    have hmono : remainingAt s t0 t ≤ remainingAt s t0 a := by
      unfold remainingAt
      omega
    have hnn : 0 ≤ remainingAt s t0 a := by
      unfold remainingAt
      omega
    unfold expectedValues at hv
    by_cases h : remainingAt s t0 t = 0
    · rw [if_pos h] at hv
      have : v = 0 := by simpa using hv
      rw [this]
      exact ⟨le_refl 0, hnn⟩
    · rw [if_neg h] at hv
      rcases List.mem_cons.mp hv with h1 | h1
      · rw [h1]
        refine ⟨?_, hmono⟩
        unfold remainingAt
        omega
      · obtain ⟨h3, h4⟩ := ih t hrest v h1
        exact ⟨h3, le_trans h4 hmono⟩

theorem expectedValues_pairwise (s t0 : Int) (ticks : List Int) :
    ∀ a : Int, List.Chain (fun x y => x + 1000 ≤ y) a ticks →
      (expectedValues s t0 ticks).Pairwise (fun x y => y ≤ x) := by
  induction ticks with
  | nil => intro a _; simp [expectedValues]
  | cons t later ih =>
    intro a hc
    obtain ⟨_, hrest⟩ := List.chain_cons.mp hc
    unfold expectedValues
    by_cases h : remainingAt s t0 t = 0
    · rw [if_pos h]
      simp
    · rw [if_neg h]
      exact List.pairwise_cons.mpr
        ⟨fun v hv => (expectedValues_bound s t0 later t hrest v hv).2, ih t hrest⟩

theorem expectedValues_length (s t0 : Int) (ticks : List Int) :
    ∀ a : Int, List.Chain (fun x y => x + 1000 ≤ y) a ticks →
      (expectedValues s t0 ticks).length ≤ max 1 (remainingAt s t0 a).toNat := by
  induction ticks with
  | nil => intro a _; simp [expectedValues]
  | cons t later ih =>
    intro a hc
    obtain ⟨hat, hrest⟩ := List.chain_cons.mp hc
    unfold expectedValues
    by_cases h : remainingAt s t0 t = 0
    · rw [if_pos h]
      simp
    · rw [if_neg h]
      have h1 := ih t hrest
      have h2 : (remainingAt s t0 t).toNat + 1 ≤ (remainingAt s t0 a).toNat := by
        unfold remainingAt at h ⊢
        omega
      have h3 : 1 ≤ (remainingAt s t0 t).toNat := by
        unfold remainingAt at h ⊢
        omega
      simp only [List.length_cons]
      omega

theorem expectedValues_reaches_zero (s t0 : Int) (ticks : List Int) :
    ∀ a : Int, List.Chain (fun x y => x + 1000 ≤ y) a ticks →
      max 1 (remainingAt s t0 a).toNat ≤ ticks.length → 0 ∈ expectedValues s t0 ticks := by
  induction ticks with
  | nil => intro a _ hlen; simp at hlen
  | cons t later ih =>
    intro a hc hlen
    obtain ⟨hat, hrest⟩ := List.chain_cons.mp hc
    unfold expectedValues
    by_cases h : remainingAt s t0 t = 0
    · rw [if_pos h]
      simp
    · rw [if_neg h]
      apply List.mem_cons_of_mem
      apply ih t hrest
      have h2 : (remainingAt s t0 t).toNat + 1 ≤ (remainingAt s t0 a).toNat := by
        unfold remainingAt at h ⊢
        omega
      have h3 : 1 ≤ (remainingAt s t0 t).toNat := by
        unfold remainingAt at h ⊢
        omega
      simp only [List.length_cons] at hlen
      omega

theorem expectedValues_zero_last (s t0 : Int) (ticks : List Int) :
    0 ∉ (expectedValues s t0 ticks).dropLast := by
  induction ticks with
  | nil => simp [expectedValues]
  | cons t later ih =>
    unfold expectedValues
    by_cases h : remainingAt s t0 t = 0
    · rw [if_pos h]
      simp
    · rw [if_neg h]
      cases hl : expectedValues s t0 later with
      | nil => simp
      | cons v rest =>
        rw [hl] at ih
        rw [List.dropLast_cons_of_ne_nil (List.cons_ne_nil v rest)]
        intro hmem
        rcases List.mem_cons.mp hmem with h1 | h1
        · exact h h1.symm
        · exact ih h1

theorem expectedValues_eq_map (s t0 : Int) (ticks : List Int) :
    expectedValues s t0 ticks =
      (ticks.take (expectedValues s t0 ticks).length).map (fun t => remainingAt s t0 t) := by
  induction ticks with
  | nil => simp [expectedValues]
  | cons t later ih =>
    unfold expectedValues
    by_cases h : remainingAt s t0 t = 0
    · simp [h]
    · simp only [if_neg h, List.length_cons, List.take_succ_cons, List.map_cons]
      rw [← ih]

theorem countdownRun_eq (s t0 : Int) (ticks : List Int) :
    countdownRun s t0 ticks =
      (if 0 ∈ expectedValues s t0 ticks then ⟨⟨0, none, none, 0⟩, [], 1⟩
        else ⟨⟨0, some 0, none, 0⟩, [⟨0, t0, s⟩], 1⟩,
       (expectedValues s t0 ticks).map
         (fun v => Effect.emit Target.everyone "countdown" (Payload.num v))) := by
  unfold countdownRun
  rw [startCountdown_initial, runTicks_running]

theorem countdownRun_values (s t0 : Int) (ticks : List Int) :
    countdownValues (countdownRun s t0 ticks).2 = expectedValues s t0 ticks := by
  rw [countdownRun_eq]
  exact countdownValues_map _

/-- Claim C7.  The countdown is started with `s ≥ 0` at time `t0` from the
initial state and its ticks fire at times each at least 1000 ms after the
previous one, the first at or after `t0 + 1000`.  Then: every effect is a
`countdown` broadcast to everyone; the broadcast values are those of
`max 0 (s - ⌊(t - t0) / 1000⌋)` at the first ticks, one per tick; they are
non-increasing and lie in `[0, s]`; at most `max 1 s` values are broadcast and
once that many ticks have fired `0` is among them; nothing is broadcast after
a `0`; and when `0` was broadcast no interval is scheduled any more and
`countdownState.interval` is `null`. -/
theorem countdown_runs_to_zero (s t0 : Int) (hs : 0 ≤ s) (ticks : List Int)
    (hticks : List.Chain (fun x y => x + 1000 ≤ y) t0 ticks) :
    (countdownRun s t0 ticks).2 =
      (countdownValues (countdownRun s t0 ticks).2).map
        (fun v => Effect.emit Target.everyone "countdown" (Payload.num v)) ∧
    countdownValues (countdownRun s t0 ticks).2 =
      (ticks.take (countdownValues (countdownRun s t0 ticks).2).length).map
        (fun t => max 0 (s - (t - t0) / 1000)) ∧
    (countdownValues (countdownRun s t0 ticks).2).Pairwise (fun x y => y ≤ x) ∧
    (∀ v ∈ countdownValues (countdownRun s t0 ticks).2, 0 ≤ v ∧ v ≤ s) ∧
    (countdownValues (countdownRun s t0 ticks).2).length ≤ max 1 s.toNat ∧
    (max 1 s.toNat ≤ ticks.length → 0 ∈ countdownValues (countdownRun s t0 ticks).2) ∧
    0 ∉ (countdownValues (countdownRun s t0 ticks).2).dropLast ∧
    (0 ∈ countdownValues (countdownRun s t0 ticks).2 →
      (countdownRun s t0 ticks).1.countdownState.interval = none ∧
      (countdownRun s t0 ticks).1.timers = []) := by
  have hstart : remainingAt s t0 t0 = s := by
    unfold remainingAt
    omega
  rw [countdownRun_values]
  refine ⟨?_, ?_, expectedValues_pairwise s t0 ticks t0 hticks, ?_, ?_, ?_,
    expectedValues_zero_last s t0 ticks, ?_⟩
  · rw [countdownRun_eq]
  · exact expectedValues_eq_map s t0 ticks
  · intro v hv
    have := expectedValues_bound s t0 ticks t0 hticks v hv
    rw [hstart] at this
    exact this
  · have := expectedValues_length s t0 ticks t0 hticks
    rw [hstart] at this
    exact this
  · intro hlen
    apply expectedValues_reaches_zero s t0 ticks t0 hticks
    rw [hstart]
    exact hlen
  · intro hz
    rw [countdownRun_eq]
    simp [hz]

/-- Witness of C7: started with 3 at 5000 and ticking at 6000, 7000, 8000 and
9000, the countdown broadcasts 2, 1, 0 and then nothing. -/
theorem countdown_runs_to_zero_witness :
    (0 : Int) ≤ 3 ∧
    List.Chain (fun x y : Int => x + 1000 ≤ y) 5000 [6000, 7000, 8000, 9000] ∧
    countdownValues (countdownRun 3 5000 [6000, 7000, 8000, 9000]).2 = [2, 1, 0] ∧
    (0 ∈ countdownValues (countdownRun 3 5000 [6000, 7000, 8000, 9000]).2 →
      (countdownRun 3 5000 [6000, 7000, 8000, 9000]).1.countdownState.interval = none ∧
      (countdownRun 3 5000 [6000, 7000, 8000, 9000]).1.timers = []) :=
  ⟨by decide, by simp, by decide,
   (countdown_runs_to_zero 3 5000 (by decide) [6000, 7000, 8000, 9000] (by simp)).2.2.2.2.2.2.2⟩

/-! ## A member leaves a room that stays -/

theorem findIndex_map_socketId (socketId : String) (roomData : List Participant)
    (h : socketId ∈ roomData.map (fun rd => rd.socketId)) :
    ∃ (before : List Participant) (p : Participant) (after : List Participant),
      roomData = before ++ p :: after ∧ p.socketId = socketId ∧
      (∀ q ∈ before, q.socketId ≠ socketId) ∧
      findIndex (fun y => decide (y = socketId)) (roomData.map (fun rd => rd.socketId)) =
        some before.length := by
  induction roomData with
  | nil => simp at h
  | cons a rest ih =>
    by_cases ha : a.socketId = socketId
    · exact ⟨[], a, rest, rfl, ha, fun q hq => absurd hq (List.not_mem_nil q),
        by simp [findIndex, ha]⟩
    · have hrest : socketId ∈ rest.map (fun rd => rd.socketId) := by
        rw [List.map_cons] at h
        rcases List.mem_cons.mp h with h1 | h1
        · exact absurd h1.symm ha
        · exact h1
      obtain ⟨before, p, after, hsplit, hp, hbefore, hidx⟩ := ih hrest
      refine ⟨a :: before, p, after, by rw [hsplit]; rfl, hp, ?_, ?_⟩
      · intro q hq
        rcases List.mem_cons.mp hq with h1 | h1
        · rw [h1]; exact ha
        · exact hbefore q h1
      · simp only [List.map_cons, findIndex, ha, decide_False, Bool.false_eq_true, if_false,
          hidx, Option.map_some', List.length_cons]

theorem eraseIdx_length_append {α : Type} (before : List α) (p : α) (after : List α) :
    (before ++ p :: after).eraseIdx before.length = before ++ after := by
  induction before with
  | nil => rfl
  | cons a rest ih => simp [List.eraseIdx, ih]

/-- For a live room whose identifier is not the empty
string, with at least two members and a `socketId` occurring among them,
`disconnected-from-game` removes the first member with that `socketId` and
nothing else: the members before and after it keep their fields and order, the
new member list is broadcast to the room as `changeInUsers`, the room stays
live with its settings, and every other room is unchanged. -/
theorem disconnectedFromGame_member (rooms : Rooms) (roomId socketId : String) (r : Room)
    (hid : roomId ≠ "") (hlive : liveRoom rooms roomId = some r)
    (hlen : 2 ≤ r.roomData.length)
    (hmem : socketId ∈ r.roomData.map (fun rd => rd.socketId)) :
    ∃ (before : List Participant) (p : Participant) (after : List Participant),
      r.roomData = before ++ p :: after ∧ p.socketId = socketId ∧
      (∀ q ∈ before, q.socketId ≠ socketId) ∧
      disconnectedFromGame rooms roomId socketId =
        Except.ok ⟨modifyRoom (fun x => { x with roomData := before ++ after }) roomId rooms,
          [Effect.emit (Target.room roomId) "changeInUsers"
            (Payload.users (some (before ++ after)) roomId)]⟩ ∧
      liveRoom (roomsAfter rooms (disconnectedFromGame rooms roomId socketId)) roomId =
        some ⟨before ++ after, r.roomSettings⟩ ∧
      ∀ k : String, k ≠ roomId →
        liveRoom (roomsAfter rooms (disconnectedFromGame rooms roomId socketId)) k =
          liveRoom rooms k := by
  obtain ⟨before, p, after, hsplit, hp, hbefore, hidx⟩ :=
    findIndex_map_socketId socketId r.roomData hmem
  have hne1 : ¬ r.roomData.length = 1 := by omega
  have hindex : indexOf (r.roomData.map (fun rd => rd.socketId)) socketId
      = (before.length : Int) := by
    simp [indexOf, hidx]
  have hsplice : splice1 r.roomData (before.length : Int) = before ++ after := by
    simp only [splice1, Int.toNat_ofNat]
    rw [hsplit]
    exact eraseIdx_length_append before p after
  have hneg : ((before.length : Int) ≠ -1) := by omega
  have hrun : disconnectedFromGame rooms roomId socketId =
      Except.ok ⟨modifyRoom (fun x => { x with roomData := before ++ after }) roomId rooms,
        [Effect.emit (Target.room roomId) "changeInUsers"
          (Payload.users (some (before ++ after)) roomId)]⟩ := by
    unfold disconnectedFromGame
    simp only [hid, ne_eq, not_false_eq_true, if_true, getProp, hlive, hne1, if_false,
      hindex, hneg, hsplice]
  refine ⟨before, p, after, hsplit, hp, hbefore, hrun, ?_, ?_⟩
  · rw [hrun]
    simp only [roomsAfter]
    rw [liveRoom_modifyRoom, if_pos rfl, hlive]
    rfl
  · intro k hk
    rw [hrun]
    simp only [roomsAfter]
    rw [liveRoom_modifyRoom, if_neg hk]

/-- Example: in the room `abc` with members `A` and `B` the
event for `B` leaves the room live with the one member `A`, and the lookup of
another identifier is unchanged. -/
theorem disconnectedFromGame_member_witness :
    "abc" ≠ "" ∧
    liveRoom [("abc", ⟨[⟨"A", "alice", true⟩, ⟨"B", "bob", false⟩], defaultSettings⟩)] "abc" =
      some ⟨[⟨"A", "alice", true⟩, ⟨"B", "bob", false⟩], defaultSettings⟩ ∧
    liveRoom (roomsAfter
        [("abc", ⟨[⟨"A", "alice", true⟩, ⟨"B", "bob", false⟩], defaultSettings⟩)]
        (disconnectedFromGame
          [("abc", ⟨[⟨"A", "alice", true⟩, ⟨"B", "bob", false⟩], defaultSettings⟩)]
          "abc" "B")) "abc" = some ⟨[⟨"A", "alice", true⟩], defaultSettings⟩ ∧
    liveRoom (roomsAfter
        [("abc", ⟨[⟨"A", "alice", true⟩, ⟨"B", "bob", false⟩], defaultSettings⟩)]
        (disconnectedFromGame
          [("abc", ⟨[⟨"A", "alice", true⟩, ⟨"B", "bob", false⟩], defaultSettings⟩)]
          "abc" "B")) "xyz" =
      liveRoom [("abc", ⟨[⟨"A", "alice", true⟩, ⟨"B", "bob", false⟩], defaultSettings⟩)] "xyz" :=
  ⟨by decide, by decide, by decide,
   match disconnectedFromGame_member
      [("abc", ⟨[⟨"A", "alice", true⟩, ⟨"B", "bob", false⟩], defaultSettings⟩)] "abc" "B"
      ⟨[⟨"A", "alice", true⟩, ⟨"B", "bob", false⟩], defaultSettings⟩
      (by decide) (by decide) (by decide) (by decide) with
   | ⟨_, _, _, _, _, _, _, _, hother⟩ => hother "xyz" (by decide)⟩

/-- Claim C11, evaluated where it fails: the room whose identifier is the
empty string.  `A` creates a room while the rendering is `0.i`, `B` joins it: the
room has two members and `B` occurs among them, yet `disconnected-from-game`
for `B` removes nobody and broadcasts nothing. -/
theorem disconnectedFromGame_member_empty_id :
    registryRun [RegistryEvent.createRoom "A" "alice" ["0.i"],
        RegistryEvent.joinRoom "B" "" "bob"] =
      [("", ⟨[⟨"A", "alice", true⟩, ⟨"B", "bob", false⟩], defaultSettings⟩)] ∧
    disconnectedFromGame
        [("", ⟨[⟨"A", "alice", true⟩, ⟨"B", "bob", false⟩], defaultSettings⟩)] "" "B" =
      Except.ok ⟨[("", ⟨[⟨"A", "alice", true⟩, ⟨"B", "bob", false⟩], defaultSettings⟩)], []⟩ := by
  decide

/-! ## How many tick loops are scheduled -/

theorem single_loop_step (e : Engine) (ev : CountdownEvent)
    (h : (e.countdownState.interval = none ∧ e.timers = []) ∨
      ∃ t : Timer, e.countdownState.interval = some t.id ∧ e.timers = [t]) :
    ((engineStep e ev).1.countdownState.interval = none ∧ (engineStep e ev).1.timers = []) ∨
      ∃ t : Timer, (engineStep e ev).1.countdownState.interval = some t.id ∧
        (engineStep e ev).1.timers = [t] := by
  cases ev with
  | disconnect => exact h
  | startCountdown seconds now =>
    rcases h with ⟨hi, ht⟩ | ⟨t, hi, ht⟩
    · right
      exact ⟨⟨e.nextId, now - e.countdownState.pausedTime, seconds⟩,
        by simp [engineStep, startCountdown, hi], by simp [engineStep, startCountdown, hi, ht]⟩
    · right
      exact ⟨t, by simp [engineStep, startCountdown, hi], by simp [engineStep, startCountdown, hi, ht]⟩
  | stopCountdown now =>
    rcases h with ⟨hi, ht⟩ | ⟨t, hi, ht⟩
    · left
      simp [engineStep, stopCountdown, hi, ht]
    · left
      simp [engineStep, stopCountdown, hi, ht, clearInterval]
  | tick id now =>
    rcases h with ⟨hi, ht⟩ | ⟨t, hi, ht⟩
    · left
      simp [engineStep, fire, ht, hi]
    · by_cases hid : t.id = id
      · by_cases hz : remainingAt t.seconds t.startTime now = 0
        · left
          simp [engineStep, fire, ht, hid, tick, hz, hi, clearInterval]
        · right
          exact ⟨t, by simp [engineStep, fire, ht, hid, tick, hz, hi],
            by simp [engineStep, fire, ht, hid, tick, hz]⟩
      · right
        exact ⟨t, by simp [engineStep, fire, ht, hid, hi], by simp [engineStep, fire, ht, hid]⟩

/-- In every state reached from the initial one either nothing is scheduled
and `countdownState.interval` is `null`, or exactly one interval is scheduled
and `countdownState.interval` holds its handle. -/
theorem single_loop_run (events : List CountdownEvent) :
    ((engineRun Engine.initial events).1.countdownState.interval = none ∧
        (engineRun Engine.initial events).1.timers = []) ∨
      ∃ t : Timer, (engineRun Engine.initial events).1.countdownState.interval = some t.id ∧
        (engineRun Engine.initial events).1.timers = [t] := by
  have hinv : ∀ (evs : List CountdownEvent) (e : Engine),
      ((e.countdownState.interval = none ∧ e.timers = []) ∨
        ∃ t : Timer, e.countdownState.interval = some t.id ∧ e.timers = [t]) →
      (((engineRun e evs).1.countdownState.interval = none ∧ (engineRun e evs).1.timers = []) ∨
        ∃ t : Timer, (engineRun e evs).1.countdownState.interval = some t.id ∧
          (engineRun e evs).1.timers = [t]) := by
    intro evs
    induction evs with
    | nil => intro e h; exact h
    | cons ev more ih =>
      intro e h
      simp only [engineRun]
      exact ih _ (single_loop_step e ev h)
  exact hinv events Engine.initial (Or.inl ⟨rfl, rfl⟩)

/-- Claim C13.  In every state reached from the initial state by a sequence
of `startCountdown`, `stopCountdown`, tick and connection-disconnect events,
at most one periodic tick loop is scheduled; one is scheduled exactly when
`countdownState.interval` is non-null. -/
theorem single_tick_loop (events : List CountdownEvent) :
    (engineRun Engine.initial events).1.timers.length ≤ 1 ∧
    ((engineRun Engine.initial events).1.timers = [] ↔
      (engineRun Engine.initial events).1.countdownState.interval = none) := by
  rcases single_loop_run events with ⟨hi, ht⟩ | ⟨t, hi, ht⟩
  · rw [ht, hi]
    exact ⟨Nat.zero_le _, Iff.rfl.trans ⟨fun _ => rfl, fun _ => rfl⟩⟩
  · rw [ht, hi]
    refine ⟨Nat.le_refl _, ⟨fun h => ?_, fun h => ?_⟩⟩
    · exact absurd h (List.cons_ne_nil _ _)
    · exact absurd h (by simp)

/-! ## Starting a countdown that is already running -/

/-- In every state whose `countdownState.interval` is non-null,
`startCountdown(s')` changes nothing; and `start(s)` followed by `start(s')`
is `start(s)` alone, from every state. -/
theorem startCountdown_while_running (e : Engine) (s1 now : Int)
    (h : e.countdownState.interval.isSome = true) :
    startCountdown e s1 now = e ∧
    (∀ events : List CountdownEvent,
      engineRun (startCountdown e s1 now) events = engineRun e events) ∧
    (∀ (e0 : Engine) (s t0 : Int),
      startCountdown (startCountdown e0 s t0) s1 now = startCountdown e0 s t0) := by
  have hnoop : ∀ x : Engine, x.countdownState.interval.isSome = true →
      startCountdown x s1 now = x := by
    intro x hx
    unfold startCountdown
    cases hi : x.countdownState.interval with
    | none => rw [hi] at hx; exact absurd hx (by decide)
    | some i => rfl
  refine ⟨hnoop e h, fun events => by rw [hnoop e h], ?_⟩
  intro e0 s t0
  apply hnoop
  unfold startCountdown
  cases hi : e0.countdownState.interval with
  | none => rfl
  | some i => simp [hi]

/-- Claim C12.  In every state, reached from the initial one by
`startCountdown`, `stopCountdown`, tick and connection-disconnect events, in
which a tick is outstanding, `startCountdown(s')` changes nothing: the
countdown state and the scheduled interval are the same after the call as
before, and every later event has the same outcome and broadcasts the same
values as without the call; hence `start(s)` followed by `start(s')` is
`start(s)` alone, from every state. -/
theorem startCountdown_outstanding_tick (events : List CountdownEvent) (s1 now : Int)
    (h : (engineRun Engine.initial events).1.timers ≠ []) :
    startCountdown (engineRun Engine.initial events).1 s1 now =
      (engineRun Engine.initial events).1 ∧
    (∀ later : List CountdownEvent,
      engineRun (startCountdown (engineRun Engine.initial events).1 s1 now) later =
        engineRun (engineRun Engine.initial events).1 later) ∧
    (∀ (e0 : Engine) (s t0 : Int),
      startCountdown (startCountdown e0 s t0) s1 now = startCountdown e0 s t0) := by
  apply startCountdown_while_running
  rcases single_loop_run events with ⟨_, ht⟩ | ⟨t, hi, _⟩
  · exact absurd ht h
  · rw [hi]
    rfl

/-- Witness of C12: after the start with 5 at 1000 and a tick at 2000 a tick
is outstanding, and the start with 7 at 2500 leaves the engine as it was; the
three ticks broadcast 4, 3 and 2 with or without that call. -/
theorem startCountdown_outstanding_tick_witness :
    (engineRun Engine.initial
        [CountdownEvent.startCountdown 5 1000, CountdownEvent.tick 0 2000]).1.timers ≠ [] ∧
    startCountdown (engineRun Engine.initial
        [CountdownEvent.startCountdown 5 1000, CountdownEvent.tick 0 2000]).1 7 2500 =
      (engineRun Engine.initial
        [CountdownEvent.startCountdown 5 1000, CountdownEvent.tick 0 2000]).1 ∧
    countdownValues (engineRun Engine.initial
        [CountdownEvent.startCountdown 5 1000, CountdownEvent.tick 0 2000,
         CountdownEvent.startCountdown 7 2500,
         CountdownEvent.tick 0 3000, CountdownEvent.tick 0 4000]).2 = [4, 3, 2] ∧
    countdownValues (engineRun Engine.initial
        [CountdownEvent.startCountdown 5 1000, CountdownEvent.tick 0 2000,
         CountdownEvent.tick 0 3000, CountdownEvent.tick 0 4000]).2 = [4, 3, 2] :=
  ⟨by decide,
   (startCountdown_outstanding_tick
     [CountdownEvent.startCountdown 5 1000, CountdownEvent.tick 0 2000] 7 2500
     (by decide)).1,
   by decide, by decide⟩

/-! ## The start anchor and the paused time -/

/-- No event ever writes `countdownState.startTime`: it is `null` in every
state reached from the initial one. -/
theorem startTime_never_set (events : List CountdownEvent) :
    (engineRun Engine.initial events).1.countdownState.startTime = none := by
  have hstep : ∀ (e : Engine) (ev : CountdownEvent), e.countdownState.startTime = none →
      (engineStep e ev).1.countdownState.startTime = none := by
    intro e ev h
    cases ev with
    | disconnect => exact h
    | startCountdown seconds now =>
      simp only [engineStep, startCountdown]
      split <;> simp [h]
    | stopCountdown now =>
      simp only [engineStep, stopCountdown]
      split <;> simp [h]
    | tick id now =>
      simp only [engineStep, fire]
      split
      · exact h
      · simp only [tick]
        split <;> simp [h]
  have hrun : ∀ (evs : List CountdownEvent) (e : Engine), e.countdownState.startTime = none →
      (engineRun e evs).1.countdownState.startTime = none := by
    intro evs
    induction evs with
    | nil => intro e h; exact h
    | cons ev more ih =>
      intro e h
      simp only [engineRun]
      exact ih _ (hstep e ev h)
  exact hrun events Engine.initial rfl

/-- Claim C18, evaluated where it fails.  After `startCountdown(5)` at 1000
from the initial state the countdown is running, `countdownState.interval`
being non-null, while `countdownState.startTime` is still `null`. -/
theorem running_without_anchor :
    (engineRun Engine.initial
        [CountdownEvent.startCountdown 5 1000]).1.countdownState.interval = some 0 ∧
    (engineRun Engine.initial
        [CountdownEvent.startCountdown 5 1000]).1.countdownState.startTime = none := by
  decide

/-- Claim C19, evaluated where it fails.  Start with 1 at 5000, stop at 5500,
start again with 1 at 6000; the tick at 7000 broadcasts 0 and the countdown
expires with `interval` null, but `pausedTime` keeps the 5500 that
`stopCountdown` recorded, and the next start at 9000 anchors at 3500. -/
theorem pausedTime_survives_expiry :
    countdownValues (engineRun Engine.initial
        [CountdownEvent.startCountdown 1 5000, CountdownEvent.stopCountdown 5500,
         CountdownEvent.startCountdown 1 6000, CountdownEvent.tick 1 7000]).2 = [0] ∧
    (engineRun Engine.initial
        [CountdownEvent.startCountdown 1 5000, CountdownEvent.stopCountdown 5500,
         CountdownEvent.startCountdown 1 6000, CountdownEvent.tick 1 7000]).1.countdownState =
      ⟨0, none, none, 5500⟩ ∧
    (engineRun Engine.initial
        [CountdownEvent.startCountdown 1 5000, CountdownEvent.stopCountdown 5500,
         CountdownEvent.startCountdown 1 6000, CountdownEvent.tick 1 7000,
         CountdownEvent.startCountdown 60 9000]).1.timers = [⟨2, 3500, 60⟩] := by
  decide

/-! ## Joining a live room -/

theorem joinRoom_live (rooms : Rooms) (c roomId n : String) (r : Room)
    (h : liveRoom rooms roomId = some r) :
    joinRoom rooms c roomId n =
      Except.ok ⟨modifyRoom
          (fun x => { x with roomData := r.roomData ++ [Participant.mk c n false] }) roomId rooms,
        [Effect.join c roomId,
         Effect.emit Target.ack ""
           (Payload.roomInfo c roomId (some (r.roomData ++ [Participant.mk c n false]))),
         Effect.emit (Target.room roomId) "userJoined"
           (Payload.roomInfo c roomId (some (r.roomData ++ [Participant.mk c n false])))]⟩ := by
  simp [joinRoom, hasProp, getProp, h]

/-- Claim C14.  For every live room with member list `L`, `joinRoom` by
connection `c` with name `n` acknowledges with, and broadcasts to the room,
the list `L` followed by `{socketId: c, username: n, isActivePlayer: false}`;
that list is the room's member list afterwards, the room's settings are kept
and every other room is unchanged.  After `createRoom` by `a` and `joinRoom`
by `c` the list is `a` active followed by `c` not active. -/
theorem joinRoom_appends (rooms : Rooms) (c n : String) :
    (∀ (roomId : String) (r : Room), liveRoom rooms roomId = some r →
      joinRoom rooms c roomId n =
        Except.ok ⟨(roomsAfter rooms (joinRoom rooms c roomId n)),
          [Effect.join c roomId,
           Effect.emit Target.ack ""
             (Payload.roomInfo c roomId (some (r.roomData ++ [Participant.mk c n false]))),
           Effect.emit (Target.room roomId) "userJoined"
             (Payload.roomInfo c roomId (some (r.roomData ++ [Participant.mk c n false])))]⟩ ∧
      liveRoom (roomsAfter rooms (joinRoom rooms c roomId n)) roomId =
        some ⟨r.roomData ++ [Participant.mk c n false], r.roomSettings⟩ ∧
      ∀ k : String, k ≠ roomId →
        liveRoom (roomsAfter rooms (joinRoom rooms c roomId n)) k = liveRoom rooms k) ∧
    (∀ (a na : String) (renderings : List String) (roomId : String) (res : Result),
      createRoom rooms a na renderings = some (roomId, res) →
      liveRoom (roomsAfter res.rooms (joinRoom res.rooms c roomId n)) roomId =
        some ⟨[Participant.mk a na true, Participant.mk c n false], defaultSettings⟩) := by
  have hlive : ∀ (rs : Rooms) (roomId : String) (r : Room), liveRoom rs roomId = some r →
      liveRoom (roomsAfter rs (joinRoom rs c roomId n)) roomId =
        some ⟨r.roomData ++ [Participant.mk c n false], r.roomSettings⟩ := by
    intro rs roomId r h
    rw [joinRoom_live rs c roomId n r h]
    simp only [roomsAfter]
    rw [liveRoom_modifyRoom, if_pos rfl, h]
    rfl
  refine ⟨fun roomId r h => ⟨?_, hlive rooms roomId r h, ?_⟩, ?_⟩
  · rw [joinRoom_live rooms c roomId n r h]
    rfl
  · intro k hk
    rw [joinRoom_live rooms c roomId n r h]
    simp only [roomsAfter]
    rw [liveRoom_modifyRoom, if_neg hk]
  · intro a na renderings roomId res hc
    obtain ⟨hfresh, hres⟩ := createRoom_rooms rooms a na renderings roomId res hc
    have hnew : liveRoom res.rooms roomId =
        some ⟨[Participant.mk a na true], defaultSettings⟩ := by
      rw [hres, liveRoom_append_single, hfresh]
      simp
    exact hlive res.rooms roomId _ hnew

/-- Witness of C14: `A` creates the room `abc` and `B` joins it. -/
theorem joinRoom_appends_witness :
    createRoom [] "A" "alice" ["0.12345abc"] =
      some ("abc",
        ⟨[("abc", ⟨[⟨"A", "alice", true⟩], defaultSettings⟩)],
         [Effect.join "A" "abc",
          Effect.emit Target.ack "" (Payload.roomInfo "A" "abc" (some [⟨"A", "alice", true⟩])),
          Effect.emit (Target.socket "A") "roomCreated"
            (Payload.roomInfo "A" "abc" (some [⟨"A", "alice", true⟩]))]⟩) ∧
    liveRoom (roomsAfter [("abc", ⟨[⟨"A", "alice", true⟩], defaultSettings⟩)]
        (joinRoom [("abc", ⟨[⟨"A", "alice", true⟩], defaultSettings⟩)] "B" "abc" "bob")) "abc" =
      some ⟨[⟨"A", "alice", true⟩, ⟨"B", "bob", false⟩], defaultSettings⟩ :=
  ⟨by decide,
   (joinRoom_appends [] "B" "bob").2 "A" "alice" ["0.12345abc"] "abc"
     ⟨[("abc", ⟨[⟨"A", "alice", true⟩], defaultSettings⟩)],
      [Effect.join "A" "abc",
       Effect.emit Target.ack "" (Payload.roomInfo "A" "abc" (some [⟨"A", "alice", true⟩])),
       Effect.emit (Target.socket "A") "roomCreated"
         (Payload.roomInfo "A" "abc" (some [⟨"A", "alice", true⟩]))]⟩
     (by decide)⟩

/-! ## Creating a room -/

/-- Claim C15.  Whenever `createRoom` completes, the generated identifier was
not live, the registry afterwards is the one before with one room added under
that identifier, whose member list is the caller alone with `isActivePlayer`
true and whose settings are players 6, rounds 4, drawTime 60, hints 1 and
isStarted false; every room live before is live and unchanged after; the
caller is acknowledged and sent `roomCreated` with that member list.  It does
complete as soon as the random source offers a candidate under which `rooms`
holds nothing. -/
theorem createRoom_adds (rooms : Rooms) (socketId username : String)
    (renderings : List String) :
    (∀ (roomId : String) (res : Result),
      createRoom rooms socketId username renderings = some (roomId, res) →
      liveRoom rooms roomId = none ∧
      res.rooms = rooms ++ [(roomId, ⟨[Participant.mk socketId username true],
        JSVal.obj [("players", JSPrim.num 6), ("rounds", JSPrim.num 4),
          ("drawTime", JSPrim.num 60), ("hints", JSPrim.num 1),
          ("isStarted", JSPrim.bool false)]⟩)] ∧
      liveRoom res.rooms roomId = some ⟨[Participant.mk socketId username true],
        JSVal.obj [("players", JSPrim.num 6), ("rounds", JSPrim.num 4),
          ("drawTime", JSPrim.num 60), ("hints", JSPrim.num 1),
          ("isStarted", JSPrim.bool false)]⟩ ∧
      (∀ k : String, k ≠ roomId → liveRoom res.rooms k = liveRoom rooms k) ∧
      res.out =
        [Effect.join socketId roomId,
         Effect.emit Target.ack ""
           (Payload.roomInfo socketId roomId (some [Participant.mk socketId username true])),
         Effect.emit (Target.socket socketId) "roomCreated"
           (Payload.roomInfo socketId roomId (some [Participant.mk socketId username true]))]) ∧
    ((∃ r ∈ renderings, (getProp rooms (substring7 r)).truthy = false) →
      (createRoom rooms socketId username renderings).isSome = true) := by
  constructor
  · intro roomId res hc
    obtain ⟨hfresh, hres⟩ := createRoom_rooms rooms socketId username renderings roomId res hc
    refine ⟨hfresh, hres, ?_, ?_, ?_⟩
    · rw [hres, liveRoom_append_single, hfresh]
      simp [defaultSettings]
    · intro k hk
      rw [hres, liveRoom_append_single]
      cases hx : liveRoom rooms k with
      | none => simp [hk]
      | some x => rfl
    · unfold createRoom at hc
      cases hg : generateUniqueRoomId rooms renderings with
      | none => simp [hg] at hc
      | some k =>
        simp only [hg, Option.some.injEq, Prod.mk.injEq] at hc
        obtain ⟨hk, hr⟩ := hc
        rw [← hr, ← hk]
  · intro h
    have := generateUniqueRoomId_returns rooms renderings h
    unfold createRoom
    cases hg : generateUniqueRoomId rooms renderings with
    | none => rw [hg] at this; exact absurd this (by decide)
    | some k => rfl

/-- Witness of C15: with the room `abc` live, a call whose first candidate is
`abc` again and whose second is `xyz` completes and adds the room `xyz`. -/
theorem createRoom_adds_witness :
    (∃ r ∈ ["0.12345abc", "0.12345xyz"],
      (getProp [("abc", ⟨[⟨"A", "alice", true⟩], defaultSettings⟩)] (substring7 r)).truthy
        = false) ∧
    (createRoom [("abc", ⟨[⟨"A", "alice", true⟩], defaultSettings⟩)] "B" "bob"
        ["0.12345abc", "0.12345xyz"]).isSome = true ∧
    (createRoom [("abc", ⟨[⟨"A", "alice", true⟩], defaultSettings⟩)] "B" "bob"
        ["0.12345abc", "0.12345xyz"]).map (fun x => (x.1, x.2.rooms)) =
      some ("xyz", [("abc", ⟨[⟨"A", "alice", true⟩], defaultSettings⟩),
        ("xyz", ⟨[⟨"B", "bob", true⟩], defaultSettings⟩)]) :=
  ⟨⟨"0.12345xyz", by decide, by decide⟩,
   (createRoom_adds [("abc", ⟨[⟨"A", "alice", true⟩], defaultSettings⟩)] "B" "bob"
      ["0.12345abc", "0.12345xyz"]).2 ⟨"0.12345xyz", by decide, by decide⟩,
   by decide⟩

/-! ## Replacing the settings -/

/-- Claim C16, amended.  For every live room and every supplied value,
`setRoomSettings` replaces the room's whole `roomSettings` object by the
supplied value (players, rounds, drawTime, hints and isStarted alike) and
broadcasts it to the room; the member list and every other room are
unchanged. -/
theorem setRoomSettings_replaces (rooms : Rooms) (roomSettings : JSVal) (roomId : String)
    (r : Room) (h : liveRoom rooms roomId = some r) :
    setRoomSettings rooms roomSettings roomId =
      Except.ok ⟨modifyRoom (fun x => { x with roomSettings := roomSettings }) roomId rooms,
        [Effect.emit (Target.room roomId) "broadcastRoomSettings"
          (Payload.settings roomSettings)]⟩ ∧
    liveRoom (roomsAfter rooms (setRoomSettings rooms roomSettings roomId)) roomId =
      some ⟨r.roomData, roomSettings⟩ ∧
    ∀ k : String, k ≠ roomId →
      liveRoom (roomsAfter rooms (setRoomSettings rooms roomSettings roomId)) k =
        liveRoom rooms k := by
  have hrun : setRoomSettings rooms roomSettings roomId =
      Except.ok ⟨modifyRoom (fun x => { x with roomSettings := roomSettings }) roomId rooms,
        [Effect.emit (Target.room roomId) "broadcastRoomSettings"
          (Payload.settings roomSettings)]⟩ := by
    simp [setRoomSettings, getProp, h]
  refine ⟨hrun, ?_, ?_⟩
  · rw [hrun]
    simp only [roomsAfter]
    rw [liveRoom_modifyRoom, if_pos rfl, h]
    rfl
  · intro k hk
    rw [hrun]
    simp only [roomsAfter]
    rw [liveRoom_modifyRoom, if_neg hk]

/-- Witness of C16 (amended): new settings for the room `abc`. -/
theorem setRoomSettings_replaces_witness :
    liveRoom [("abc", ⟨[⟨"A", "alice", true⟩], defaultSettings⟩)] "abc" =
      some ⟨[⟨"A", "alice", true⟩], defaultSettings⟩ ∧
    liveRoom (roomsAfter [("abc", ⟨[⟨"A", "alice", true⟩], defaultSettings⟩)]
        (setRoomSettings [("abc", ⟨[⟨"A", "alice", true⟩], defaultSettings⟩)]
          (JSVal.obj [("players", JSPrim.num 8), ("rounds", JSPrim.num 3),
            ("drawTime", JSPrim.num 80), ("hints", JSPrim.num 2)]) "abc")) "abc" =
      some ⟨[⟨"A", "alice", true⟩],
        JSVal.obj [("players", JSPrim.num 8), ("rounds", JSPrim.num 3),
          ("drawTime", JSPrim.num 80), ("hints", JSPrim.num 2)]⟩ :=
  ⟨by decide,
   (setRoomSettings_replaces [("abc", ⟨[⟨"A", "alice", true⟩], defaultSettings⟩)]
     (JSVal.obj [("players", JSPrim.num 8), ("rounds", JSPrim.num 3),
       ("drawTime", JSPrim.num 80), ("hints", JSPrim.num 2)]) "abc"
     ⟨[⟨"A", "alice", true⟩], defaultSettings⟩ (by decide)).2.1⟩

/-- Claim C16 as stated fails on the started flag.  In the room `abc`, created
and then started, `isStarted` is true; `setRoomSettings` with the four fields
players, rounds, drawTime and hints replaces the whole object, and `isStarted`
reads `undefined` afterwards; supplied with `isStarted: false` it reads
false. -/
theorem setRoomSettings_drops_started :
    registryRun [RegistryEvent.createRoom "A" "alice" ["0.12345abc"],
        RegistryEvent.startGame "abc"] =
      [("abc", ⟨[⟨"A", "alice", true⟩],
        JSVal.obj [("players", JSPrim.num 6), ("rounds", JSPrim.num 4),
          ("drawTime", JSPrim.num 60), ("hints", JSPrim.num 1),
          ("isStarted", JSPrim.bool true)]⟩)] ∧
    (liveRoom (registryRun [RegistryEvent.createRoom "A" "alice" ["0.12345abc"],
        RegistryEvent.startGame "abc"]) "abc").map Room.isStarted =
      some (Except.ok (JSPrim.bool true)) ∧
    (liveRoom (registryRun [RegistryEvent.createRoom "A" "alice" ["0.12345abc"],
        RegistryEvent.startGame "abc",
        RegistryEvent.setRoomSettings
          (JSVal.obj [("players", JSPrim.num 8), ("rounds", JSPrim.num 3),
            ("drawTime", JSPrim.num 80), ("hints", JSPrim.num 2)]) "abc"])
      "abc").map Room.isStarted = some (Except.ok JSPrim.undefined) ∧
    (liveRoom (registryRun [RegistryEvent.createRoom "A" "alice" ["0.12345abc"],
        RegistryEvent.startGame "abc",
        RegistryEvent.setRoomSettings
          (JSVal.obj [("players", JSPrim.num 8), ("rounds", JSPrim.num 3),
            ("drawTime", JSPrim.num 80), ("hints", JSPrim.num 2),
            ("isStarted", JSPrim.bool false)]) "abc"])
      "abc").map Room.isStarted = some (Except.ok (JSPrim.bool false)) := by
  decide

/-! ## Starting the game -/

theorem getField_setField_self (key : String) (v : JSPrim) (fields : List (String × JSPrim)) :
    getField key (setField key v fields) = v := by
  induction fields with
  | nil => simp [setField, getField]
  | cons e rest ih =>
    obtain ⟨k, w⟩ := e
    unfold setField
    by_cases h : k = key
    · simp [h, getField]
    · simp [h, getField, ih]

theorem getField_setField_ne (key other : String) (v : JSPrim)
    (fields : List (String × JSPrim)) (hne : other ≠ key) :
    getField other (setField key v fields) = getField other fields := by
  induction fields with
  | nil => simp [setField, getField, hne.symm]
  | cons e rest ih =>
    obtain ⟨k, w⟩ := e
    unfold setField
    by_cases h : k = key
    · have h2 : ¬ k = other := fun x => hne (x.symm.trans h)
      simp [h, getField, hne.symm]
    · by_cases h3 : k = other
      · subst h3
        simp [hne, getField]
      · simp [h, getField, h3, ih]

theorem setField_setField (key : String) (v : JSPrim) (fields : List (String × JSPrim)) :
    setField key v (setField key v fields) = setField key v fields := by
  induction fields with
  | nil => simp [setField]
  | cons e rest ih =>
    obtain ⟨k, w⟩ := e
    by_cases h : k = key
    · simp [setField, h]
    · simp [setField, h, ih]

theorem modifyRoom_const_twice (room : Room → Room) (roomId : String) (rooms : Rooms)
    (hidem : ∀ x : Room, room (room x) = room x) :
    modifyRoom room roomId (modifyRoom room roomId rooms) = modifyRoom room roomId rooms := by
  induction rooms with
  | nil => rfl
  | cons e rest ih =>
    obtain ⟨k, r⟩ := e
    rw [modifyRoom_cons]
    by_cases h : k = roomId
    · rw [if_pos h, modifyRoom_cons, if_pos h, ih, hidem]
    · rw [if_neg h, modifyRoom_cons, if_neg h, ih]

/-- Claim C17, amended.  For every live room whose `roomSettings` is an
object, `startGame` sets `isStarted` to true in it and announces the start to
the room; every other field of the settings, the member list and every other
room are unchanged, and a second `startGame` leaves the registry as the first
one made it. -/
theorem startGame_sets_started (rooms : Rooms) (roomId : String) (r : Room)
    (fields : List (String × JSPrim)) (hlive : liveRoom rooms roomId = some r)
    (hobj : r.roomSettings = JSVal.obj fields) :
    startGame rooms roomId =
      Except.ok ⟨roomsAfter rooms (startGame rooms roomId),
        [Effect.emit (Target.room roomId) "changeStateToStarted" (Payload.bool true)]⟩ ∧
    liveRoom (roomsAfter rooms (startGame rooms roomId)) roomId =
      some ⟨r.roomData, JSVal.obj (setField "isStarted" (JSPrim.bool true) fields)⟩ ∧
    getField "isStarted" (setField "isStarted" (JSPrim.bool true) fields) = JSPrim.bool true ∧
    (∀ key : String, key ≠ "isStarted" →
      getField key (setField "isStarted" (JSPrim.bool true) fields) = getField key fields) ∧
    (∀ k : String, k ≠ roomId →
      liveRoom (roomsAfter rooms (startGame rooms roomId)) k = liveRoom rooms k) ∧
    roomsAfter (roomsAfter rooms (startGame rooms roomId))
        (startGame (roomsAfter rooms (startGame rooms roomId)) roomId) =
      roomsAfter rooms (startGame rooms roomId) := by
  have hrun : ∀ (rs : Rooms) (x : Room) (fs : List (String × JSPrim)),
      liveRoom rs roomId = some x → x.roomSettings = JSVal.obj fs →
      startGame rs roomId =
        Except.ok ⟨modifyRoom
            (fun y => ⟨y.roomData, JSVal.obj (setField "isStarted" (JSPrim.bool true) fs)⟩)
            roomId rs,
          [Effect.emit (Target.room roomId) "changeStateToStarted" (Payload.bool true)]⟩ := by
    intro rs x fs hx hfs
    simp [startGame, getProp, hx, hfs, markStarted]
  have hafter : liveRoom (roomsAfter rooms (startGame rooms roomId)) roomId =
      some ⟨r.roomData, JSVal.obj (setField "isStarted" (JSPrim.bool true) fields)⟩ := by
    rw [hrun rooms r fields hlive hobj]
    simp only [roomsAfter]
    rw [liveRoom_modifyRoom, if_pos rfl, hlive]
    rfl
  refine ⟨?_, hafter, getField_setField_self _ _ _,
    fun key hkey => getField_setField_ne _ _ _ _ hkey, ?_, ?_⟩
  · rw [hrun rooms r fields hlive hobj]
    rfl
  · intro k hk
    rw [hrun rooms r fields hlive hobj]
    simp only [roomsAfter]
    rw [liveRoom_modifyRoom, if_neg hk]
  · rw [hrun _ _ _ hafter rfl, setField_setField]
    rw [hrun rooms r fields hlive hobj]
    simp only [roomsAfter]
    exact modifyRoom_const_twice _ roomId rooms (fun _ => rfl)

/-- Witness of C17 (amended): `startGame` on the freshly created room `abc`. -/
theorem startGame_sets_started_witness :
    liveRoom [("abc", ⟨[⟨"A", "alice", true⟩], defaultSettings⟩)] "abc" =
      some ⟨[⟨"A", "alice", true⟩], defaultSettings⟩ ∧
    liveRoom (roomsAfter [("abc", ⟨[⟨"A", "alice", true⟩], defaultSettings⟩)]
        (startGame [("abc", ⟨[⟨"A", "alice", true⟩], defaultSettings⟩)] "abc")) "abc" =
      some ⟨[⟨"A", "alice", true⟩],
        JSVal.obj (setField "isStarted" (JSPrim.bool true)
          [("players", JSPrim.num 6), ("rounds", JSPrim.num 4),
           ("drawTime", JSPrim.num 60), ("hints", JSPrim.num 1),
           ("isStarted", JSPrim.bool false)])⟩ :=
  ⟨by decide,
   (startGame_sets_started [("abc", ⟨[⟨"A", "alice", true⟩], defaultSettings⟩)] "abc"
     ⟨[⟨"A", "alice", true⟩], defaultSettings⟩
     [("players", JSPrim.num 6), ("rounds", JSPrim.num 4),
      ("drawTime", JSPrim.num 60), ("hints", JSPrim.num 1),
      ("isStarted", JSPrim.bool false)] (by decide) (by decide)).2.1⟩

/-- Claim C17 as stated fails in a registry reached by handler events.  `A`
creates the room `abc` and `setRoomSettings` arrives for it with `null` as
settings, which is stored as it is; `startGame` then raises a `TypeError`, and
the room is left without a started flag.  With the number 5 as settings
`startGame` completes, announces the start, and writes nothing. -/
theorem startGame_on_null_settings :
    registryRun [RegistryEvent.createRoom "A" "alice" ["0.12345abc"],
        RegistryEvent.setRoomSettings (JSVal.prim JSPrim.null) "abc"] =
      [("abc", ⟨[⟨"A", "alice", true⟩], JSVal.prim JSPrim.null⟩)] ∧
    startGame [("abc", ⟨[⟨"A", "alice", true⟩], JSVal.prim JSPrim.null⟩)] "abc" =
      Except.error (JSError.typeError "null.isStarted") ∧
    registryRun [RegistryEvent.createRoom "A" "alice" ["0.12345abc"],
        RegistryEvent.setRoomSettings (JSVal.prim JSPrim.null) "abc",
        RegistryEvent.startGame "abc"] =
      [("abc", ⟨[⟨"A", "alice", true⟩], JSVal.prim JSPrim.null⟩)] ∧
    startGame [("abc", ⟨[⟨"A", "alice", true⟩], JSVal.prim (JSPrim.num 5)⟩)] "abc" =
      Except.ok ⟨[("abc", ⟨[⟨"A", "alice", true⟩], JSVal.prim (JSPrim.num 5)⟩)],
        [Effect.emit (Target.room "abc") "changeStateToStarted" (Payload.bool true)]⟩ := by
  decide

/-! ## Checking for a room -/

/-- In a registry reached by handler events `checkRoom` returns true for the
identifier of a live room, and false for an identifier that is neither live
nor a name inherited from `Object.prototype`. -/
theorem checkRoom_reachable (events : List RegistryEvent) (roomId : String) :
    (∀ r : Room, liveRoom (registryRun events) roomId = some r →
      checkRoom (registryRun events) roomId = Except.ok true) ∧
    (liveRoom (registryRun events) roomId = none → roomId ∉ objectPrototypeKeys →
      checkRoom (registryRun events) roomId = Except.ok false) := by
  constructor
  · intro r h
    have hpop : 1 ≤ r.roomData.length :=
      roomsPopulated_foldl events [] (fun _ he => absurd he (List.not_mem_nil _))
        (roomId, r) (liveRoom_some_mem _ roomId r h)
    have hne : r.roomData.length ≠ 0 := by omega
    simp [checkRoom, getProp, h, hne]
  · intro h hp
    simp [checkRoom, getProp, h, hp]

/-- Claim C20, evaluated where it fails.  In the empty registry no room is
live under `toString`, but `rooms["toString"]` is an inherited function:
`checkRoom` raises a `TypeError` on the length of its undefined `roomData`,
the handler catches it and reports nothing, neither true nor false. -/
theorem checkRoom_inherited_key :
    registryRun [] = [] ∧
    liveRoom [] "toString" = none ∧
    checkRoom [] "toString" = Except.error (JSError.typeError "undefined.length") ∧
    checkRoomHandler [] "a" "toString" = Except.ok ⟨[], []⟩ ∧
    checkRoomHandler [] "a" "nope" =
      Except.ok ⟨[], [Effect.emit (Target.room "a") "check-room-status"
        (Payload.roomStatus false Slot.undefined)]⟩ := by
  decide

end Skribbl
